import Mathlib

/-!
# XKCD comic service: a shallow embedding

The service of `src/services/xkcdService.js` (a read-through cache in front of
the xkcd JSON endpoint, with `getLatest`, `getById`, `getRandom` and `search`),
the error-handling middleware of `src/middleware/errorHandler.js`, and the
properties of the specification that are about them.

Modelling conventions.

* An `async` method is a function from the state of the world before the call
  to its outcome (`Except JsError _`: a rejection or a value) and the state
  after it. One request runs at a time.
* The outside world is an `Env`: the clock (`Date.now()`), the upstream server
  (`fetch`), the random source (`Math.random()`), and the three host string
  conversions whose full definition lives in the JavaScript engine.
* A JavaScript number is its exact value: an integer is an `Int`, any other
  finite value a rational. Every sum, difference and product the service
  computes is rounded to the nearest double, ties to even, as the engine rounds
  it (`roundDouble`); it is exact for integers of magnitude up to `2 ^ 53`.
* JavaScript strings are Lean strings (sequences of code points); `length`
  counts UTF-16 code units as the engine does.
* Values read from the upstream JSON are primitives (or absent); rejections are
  `Error` objects with a string `message`.
-/

namespace XKCDService

/-! ## JavaScript values -/

/-- A JavaScript number: an integer, another finite value, or one of the three
non-finite values. -/
inductive JsNum where
  | int (z : Int)
  | nonInt (q : ℚ) (h : q.den ≠ 1)
  | nan
  | posInf
  | negInf
  deriving DecidableEq

/-- A JavaScript primitive value (`undefined` stands for an absent property). -/
inductive JsVal where
  | undefined
  | null
  | bool (b : Bool)
  | num (n : JsNum)
  | str (s : String)
  deriving DecidableEq

/-- The number with the value of a rational. -/
def JsNum.ofRat (q : ℚ) : JsNum :=
  if h : q.den = 1 then .int q.num else .nonInt q h

/-- Rounding to the nearest integer, a tie going to the even one. -/
def roundHalfEven (y : ℚ) : Int :=
  if y - ⌊y⌋ < 1 / 2 then ⌊y⌋
  else if 1 / 2 < y - ⌊y⌋ then ⌊y⌋ + 1
  else if ⌊y⌋ % 2 = 0 then ⌊y⌋ else ⌊y⌋ + 1

/-- The exponent of the unit in the last place of the doubles around `x`: 53
significant bits, and no exponent below that of the subnormal numbers. -/
def ulpExponent (x : ℚ) : Int := max (Int.log 2 |x| - 52) (-1074)

/-- The multiple of the unit in the last place nearest to `x`, ties to even. -/
def nearestDouble (x : ℚ) : ℚ :=
  (roundHalfEven (x / 2 ^ ulpExponent x) : ℚ) * 2 ^ ulpExponent x

/-- The double the engine produces for an exact result `x` (IEEE 754 binary64,
round to nearest, ties to even): an infinity once the rounded magnitude reaches
`2 ^ 1024`. -/
def roundDouble (x : ℚ) : JsNum :=
  if 2 ^ 1024 ≤ |nearestDouble x| then (if 0 < x then .posInf else .negInf)
  else JsNum.ofRat (nearestDouble x)

/-- The finite doubles: `m * 2 ^ e` with a significand `m` of at most 53 bits. -/
def IsDouble (q : ℚ) : Prop :=
  ∃ m e : Int, |m| < 2 ^ 53 ∧ -1074 ≤ e ∧ e ≤ 971 ∧ q = m * 2 ^ e

/-- The test `Number.isInteger(v)`: `v` is a number and its value is an integer. -/
def numberIsInteger : JsVal → Bool
  | .num (.int _) => true
  | _ => false

/-- The comparison `a < b` of two numbers (false as soon as one is `NaN`). -/
def JsNum.lt : JsNum → JsNum → Bool
  | .nan, _ => false
  | _, .nan => false
  | .int a, .int b => decide (a < b)
  | .int a, .nonInt q _ => decide ((a : ℚ) < q)
  | .nonInt q _, .int b => decide (q < (b : ℚ))
  | .nonInt p _, .nonInt q _ => decide (p < q)
  | .posInf, _ => false
  | _, .posInf => true
  | _, .negInf => false
  | .negInf, _ => true

/-- The comparison `a >= b` of two numbers (false as soon as one is `NaN`). -/
def JsNum.ge : JsNum → JsNum → Bool
  | .nan, _ => false
  | _, .nan => false
  | a, b => !(JsNum.lt a b)

/-- The subtraction `a - k` of an integer constant from a number, rounded to the
nearest double. -/
def JsNum.subInt : JsNum → Int → JsNum
  | .int z, k => roundDouble ((z - k : Int) : ℚ)
  | .nonInt q _, k => roundDouble (q - k)
  | .nan, _ => .nan
  | .posInf, _ => .posInf
  | .negInf, _ => .negInf

/-- The sum `a + k` of a number and an integer constant, rounded to the nearest
double. -/
def JsNum.addInt : JsNum → Int → JsNum
  | .int z, k => roundDouble ((z + k : Int) : ℚ)
  | .nonInt q _, k => roundDouble (q + k)
  | .nan, _ => .nan
  | .posInf, _ => .posInf
  | .negInf, _ => .negInf

/-- The function `Math.floor`. -/
def JsNum.floor : JsNum → JsNum
  | .int z => .int z
  | .nonInt q _ => .int ⌊q⌋
  | .nan => .nan
  | .posInf => .posInf
  | .negInf => .negInf

/-- The function `Math.max(a, b)` (`NaN` as soon as one argument is `NaN`). -/
def JsNum.max (a b : JsNum) : JsNum :=
  match a, b with
  | .nan, _ => .nan
  | _, .nan => .nan
  | a, b => if JsNum.lt a b then b else a

/-- The product `r * x` of a finite value `r` and a number `x`, rounded to the
nearest double. -/
def JsNum.mulRat (r : ℚ) : JsNum → JsNum
  | .int z => roundDouble (r * z)
  | .nonInt q _ => roundDouble (r * q)
  | .nan => .nan
  | .posInf => if r = 0 then .nan else if 0 < r then .posInf else .negInf
  | .negInf => if r = 0 then .nan else if 0 < r then .negInf else .posInf

/-- Truthiness of a value, as `!v`, `v || w` and `v && w` test it. -/
def JsVal.truthy : JsVal → Bool
  | .undefined => false
  | .null => false
  | .bool b => b
  | .num (.int z) => decide (z ≠ 0)
  | .num .nan => false
  | .num _ => true
  | .str s => decide (s ≠ "")

/-! ## The host environment -/

/-- The value produced by `new Error(message)` and by the rejections of the
network layer: the properties the service and the middleware read. -/
structure JsError where
  name : String
  message : String
  isOperational : Bool
  statusCode : Option Nat
  deriving DecidableEq

/-- The error `new Error(message)`. -/
def mkError (message : String) : JsError :=
  { name := "Error", message := message, isOperational := false, statusCode := none }

/-- The error the engine throws when a property of `null` or `undefined` is read. -/
def typeError (message : String) : JsError :=
  { name := "TypeError", message := message, isOperational := false, statusCode := none }

/-- A parsed JSON object: its properties with their values. -/
abbrev RawComic := List (String × JsVal)

/-- The property `raw[key]` (`undefined` when absent). -/
def getProp (raw : RawComic) (key : String) : JsVal :=
  (raw.lookup key).getD .undefined

/-- A response of the upstream server: `ok`, `status`, `statusText`, and what
`response.json()` settles to (a rejection, `null`, or an object). -/
structure Response where
  ok : Bool
  status : Nat
  statusText : String
  json : Except JsError (Option RawComic)

/-- What `await fetch(url)` settles to: a rejection, or a response (`none` is a
falsy resolution). -/
inductive FetchOutcome where
  | rejected (e : JsError)
  | resolved (r : Option Response)

/-- The outside world of the service. `now k` is what the `k`-th call of
`Date.now()` returns, `fetch k url` what the `k`-th outbound request settles to,
`random k` what the `k`-th call of `Math.random()` returns (a double, at least 0
and below 1). The last three
fields are the engine's conversions outside the range the model computes:
lower-casing of a string with non-ASCII characters, the text of a number that
is not an integer of magnitude up to `2 ^ 53`, and the number a string converts
to. -/
structure Env where
  now : Nat → Int
  fetch : Nat → String → FetchOutcome
  random : Nat → ℚ
  lowerHost : String → String
  numberTextHost : JsNum → String
  stringToNumber : String → JsNum

/-- The conversion of a value to a number (`ToNumber`). -/
def toNumber (env : Env) : JsVal → JsNum
  | .undefined => .nan
  | .null => .int 0
  | .bool b => if b then .int 1 else .int 0
  | .num n => n
  | .str s => env.stringToNumber s

/-- The text of a number (`Number.prototype.toString`): the decimal digits of an
integer of magnitude up to `2 ^ 53`; beyond, the engine prints the shortest
digits that read back as the same double, which is left to the host. -/
def numberText (env : Env) : JsNum → String
  | .int z => if z.natAbs ≤ 2 ^ 53 then toString z else env.numberTextHost (.int z)
  | .nan => "NaN"
  | .posInf => "Infinity"
  | .negInf => "-Infinity"
  | n => env.numberTextHost n

/-- The text of a value inside a template literal (`ToString`). -/
def toStr (env : Env) : JsVal → String
  | .undefined => "undefined"
  | .null => "null"
  | .bool b => if b then "true" else "false"
  | .num n => numberText env n
  | .str s => s

/-- The method `String.prototype.toLowerCase`: on an ASCII string the letters
`A` to `Z` move to `a` to `z`. -/
def toLowerCase (env : Env) (s : String) : String :=
  if s.data.all (fun c => decide (c.val < 128)) then String.mk (s.data.map Char.toLower)
  else env.lowerHost s

/-- The list form of `String.prototype.includes`. -/
def includesChars : List Char → List Char → Bool
  | [], q => q.isEmpty
  | c :: t, q => q.isPrefixOf (c :: t) || includesChars t q

/-- The method `String.prototype.includes`. -/
def includes (text query : String) : Bool :=
  includesChars text.data query.data

/-- The method `String.prototype.startsWith`. -/
def startsWith (text query : String) : Bool :=
  query.data.isPrefixOf text.data

/-- The property `length` of a string: its number of UTF-16 code units. -/
def jsLength (s : String) : Nat :=
  (s.data.map (fun c => if c.val < 0x10000 then 1 else 2)).sum

/-! ## The data model -/

/-- The record `processComic` returns. -/
structure Comic where
  id : JsVal
  title : JsVal
  img : JsVal
  alt : JsVal
  transcript : JsVal
  year : JsVal
  month : JsVal
  day : JsVal
  safe_title : JsVal
  deriving DecidableEq

/-- A cache entry: the record and the instant it was stored. -/
structure CacheEntry where
  data : Comic
  timestamp : Int
  deriving DecidableEq

/-- The `Map` of the service, by key. -/
abbrev Cache := List (String × CacheEntry)

/-- The method `Map.prototype.get`. -/
def Cache.get (c : Cache) (key : String) : Option CacheEntry :=
  c.lookup key

/-- The method `Map.prototype.set`: the entry of an existing key is replaced in
place, a new key is added at the end. -/
def Cache.set (c : Cache) (key : String) (entry : CacheEntry) : Cache :=
  if c.any (fun p => p.1 == key) then
    c.map (fun p => if p.1 == key then (key, entry) else p)
  else c ++ [(key, entry)]

/-- The state the service reads and writes: its cache, and a record of what it
has done (the keys it looked up, the URLs it requested, how many times it read
the clock and the random source, the arguments `getById` was called with). -/
structure World where
  cache : Cache
  cacheReads : List String
  requests : List String
  clock : Nat
  draws : Nat
  byIdCalls : List JsVal
  deriving DecidableEq

/-- The field `baseUrl`. -/
def baseUrl : String := "https://xkcd.com"

/-- The field `cacheTimeout`: five minutes, in milliseconds. -/
def cacheTimeout : Int := 5 * 60 * 1000

/-- The outcome of a method: a rejection or a value, and the state after it. -/
abbrev Outcome (α : Type) := Except JsError α × World

/-! ## The service -/

/-- The method `processComic`: reading a property of `null` throws. -/
def processComic (comic : Option RawComic) : Except JsError Comic :=
  match comic with
  | none => .error (typeError "Cannot read properties of null (reading 'num')")
  | some raw =>
    .ok
      { id := getProp raw "num"
        title := getProp raw "title"
        img := getProp raw "img"
        alt := getProp raw "alt"
        transcript :=
          if (getProp raw "transcript").truthy then getProp raw "transcript" else .str ""
        year := getProp raw "year"
        month := getProp raw "month"
        day := getProp raw "day"
        safe_title := getProp raw "safe_title" }

/-- The `try` block of `getLatest` up to `processComic`, once `fetch` has
settled: what it throws, or the processed comic. -/
def latestBody (outcome : FetchOutcome) : Except JsError Comic :=
  match outcome with
  | .rejected e => .error e
  | .resolved none => .error (typeError "Cannot read properties of undefined (reading 'ok')")
  | .resolved (some response) =>
    if !response.ok then
      .error (mkError ("HTTP " ++ toString response.status ++ ": " ++ response.statusText))
    else
      match response.json with
      | .error e => .error e
      | .ok comic => processComic comic

/-- The `try` and `catch` blocks of `getLatest`, entered on a cache miss. -/
def fetchLatest (env : Env) (w : World) : Outcome Comic :=
  let url := baseUrl ++ "/info.0.json"
  let outcome := env.fetch w.requests.length url
  let w := { w with requests := w.requests ++ [url] }
  match latestBody outcome with
  | .ok processedComic =>
    let timestamp := env.now w.clock
    let w := { w with clock := w.clock + 1 }
    let w := { w with cache := w.cache.set "latest" { data := processedComic, timestamp := timestamp } }
    (.ok processedComic, w)
  | .error error =>
    (.error (mkError ("Failed to fetch latest comic: " ++ error.message)), w)

/-- The method `getLatest`. The clock is read only when the cache has an entry
(`cached && Date.now() - cached.timestamp < this.cacheTimeout`). The pause of
5 ms the method takes in the test environment changes no state and is left out. -/
def getLatest (env : Env) (w : World) : Outcome Comic :=
  let cacheKey := "latest"
  let cached := w.cache.get cacheKey
  let w := { w with cacheReads := w.cacheReads ++ [cacheKey] }
  match cached with
  | some entry =>
    let now := env.now w.clock
    let w := { w with clock := w.clock + 1 }
    if now - entry.timestamp < cacheTimeout then (.ok entry.data, w)
    else fetchLatest env w
  | none => fetchLatest env w

/-- The `try` block of `getById` up to `processComic`, once `fetch` has
settled: what it throws, or the processed comic. -/
def byIdBody (outcome : FetchOutcome) : Except JsError Comic :=
  match outcome with
  | .rejected e => .error e
  | .resolved none => .error (mkError "Comic not found")
  | .resolved (some response) =>
    if response.status = 404 then .error (mkError "Comic not found")
    else if !response.ok then
      .error (mkError ("Failed to fetch comic: HTTP " ++ toString response.status ++ ": "
        ++ response.statusText))
    else
      match response.json with
      | .error e => .error e
      | .ok comic => processComic comic

/-- The `catch` block of `getById`: what it throws for the error it caught. -/
def byIdCatch (error : JsError) : JsError :=
  if error.message = "Comic not found" || startsWith error.message "HTTP" then error
  else mkError ("Failed to fetch comic: " ++ error.message)

/-- The `try` and `catch` blocks of `getById`, entered on a cache miss. -/
def fetchById (env : Env) (id : JsVal) (cacheKey : String) (w : World) : Outcome Comic :=
  let url := baseUrl ++ "/" ++ toStr env id ++ "/info.0.json"
  let outcome := env.fetch w.requests.length url
  let w := { w with requests := w.requests ++ [url] }
  match byIdBody outcome with
  | .ok processedComic =>
    let timestamp := env.now w.clock
    let w := { w with clock := w.clock + 1 }
    let w := { w with cache := w.cache.set cacheKey { data := processedComic, timestamp := timestamp } }
    (.ok processedComic, w)
  | .error error => (.error (byIdCatch error), w)

/-- The method `getById`. Each call is recorded in `byIdCalls` with its argument. -/
def getById (env : Env) (id : JsVal) (w : World) : Outcome Comic :=
  let w := { w with byIdCalls := w.byIdCalls ++ [id] }
  if !numberIsInteger id || JsNum.lt (toNumber env id) (.int 1) then
    (.error (mkError "Invalid comic ID"), w)
  else
    let cacheKey := "comic-" ++ toStr env id
    let cached := w.cache.get cacheKey
    let w := { w with cacheReads := w.cacheReads ++ [cacheKey] }
    match cached with
    | some entry =>
      let now := env.now w.clock
      let w := { w with clock := w.clock + 1 }
      if now - entry.timestamp < cacheTimeout then (.ok entry.data, w)
      else fetchById env id cacheKey w
    | none => fetchById env id cacheKey w

/-- The method `getRandom`. -/
def getRandom (env : Env) (w : World) : Outcome Comic :=
  match getLatest env w with
  | (.error error, w) =>
    (.error (mkError ("Failed to fetch random comic: " ++ error.message)), w)
  | (.ok latest, w) =>
    let r := env.random w.draws
    let w := { w with draws := w.draws + 1 }
    let randomId := JsNum.addInt (JsNum.floor (JsNum.mulRat r (toNumber env latest.id))) 1
    match getById env (.num randomId) w with
    | (.ok comic, w) => (.ok comic, w)
    | (.error error, w) =>
      (.error (mkError ("Failed to fetch random comic: " ++ error.message)), w)

/-- The `pagination` property of a search result. -/
structure Pagination where
  page : Int
  limit : Int
  offset : JsNum
  deriving DecidableEq

/-- The object `search` returns. -/
structure SearchResult where
  query : String
  results : List Comic
  total : Nat
  pagination : Pagination
  deriving DecidableEq

/-- The integer a value holds, once `Number.isInteger` has accepted it. -/
def intValue : JsVal → Int
  | .num (.int z) => z
  | _ => 0

/-- An argument of `Array.prototype.slice` as an index into an array of length
`len`: the number is truncated to an integer (`NaN` to 0), a negative index
counts from the end, and the result is kept between 0 and `len`. -/
def sliceIndex (len : Nat) : JsNum → Nat
  | .nan => 0
  | .negInf => 0
  | .posInf => len
  | .int z => if z < 0 then ((len : Int) + z).toNat else min z.toNat len
  | .nonInt q _ =>
    let z : Int := if q < 0 then ⌈q⌉ else ⌊q⌋
    if z < 0 then ((len : Int) + z).toNat else min z.toNat len

/-- The method `Array.prototype.slice(start, stop)`. -/
def jsSlice {α : Type} (xs : List α) (start stop : JsNum) : List α :=
  (xs.drop (sliceIndex xs.length start)).take
    (sliceIndex xs.length stop - sliceIndex xs.length start)

/-- The body of the inner `try` of `search` for one comic: the results after it. -/
def pushIfMatch (env : Env) (query : String) (results : List Comic) (comic : Comic) :
    List Comic :=
  let text := toLowerCase env (toStr env comic.title ++ " " ++ toStr env comic.transcript)
  if includes text (toLowerCase env query) then results ++ [comic] else results

/-- The loop `for (let i = latest.id; i >= start; i--)` of `search`, run for at
most `fuel` iterations: `none` when the condition still holds after them. A
rejection of `getById` is caught and the loop goes on. -/
def searchLoop (env : Env) (query : String) (start : JsNum) :
    Nat → JsVal → List Comic → World → Option (List Comic × World)
  | 0, i, results, w =>
    if JsNum.ge (toNumber env i) start then none else some (results, w)
  | fuel + 1, i, results, w =>
    if JsNum.ge (toNumber env i) start then
      let next := JsVal.num (JsNum.subInt (toNumber env i) 1)
      match getById env i w with
      | (.ok comic, w) => searchLoop env query start fuel next (pushIfMatch env query results comic) w
      | (.error _, w) => searchLoop env query start fuel next results w
    else some (results, w)

/-- The method `search(query, page = 1, limit = 10)`, its loop run for at most
`fuel` iterations (`none`: the loop has not ended within them). -/
def search (env : Env) (fuel : Nat) (query : String) (page limit : JsVal) (w : World) :
    Option (Outcome SearchResult) :=
  let page := if page = .undefined then .num (.int 1) else page
  let limit := if limit = .undefined then .num (.int 10) else limit
  if query = "" || decide (jsLength query < 1) || decide (jsLength query > 100) then
    some (.error (mkError "Query must be between 1 and 100 characters"), w)
  else if !numberIsInteger page || JsNum.lt (toNumber env page) (.int 1) then
    some (.error (mkError "Page must be a positive integer"), w)
  else if !numberIsInteger limit || JsNum.lt (toNumber env limit) (.int 1)
      || JsNum.lt (.int 50) (toNumber env limit) then
    some (.error (mkError "Limit must be between 1 and 50"), w)
  else
    let offset := JsNum.mulRat (intValue limit) (JsNum.subInt (toNumber env page) 1)
    match getLatest env w with
    | (.error err, w) => some (.error (mkError ("Search failed: " ++ err.message)), w)
    | (.ok latest, w) =>
      let start := JsNum.max (.int 1) (JsNum.subInt (toNumber env latest.id) 99)
      match searchLoop env query start fuel latest.id [] w with
      | none => none
      | some (results, w) =>
        let paged := jsSlice results offset (JsNum.addInt offset (intValue limit))
        some (.ok
          { query := query
            results := paged
            total := results.length
            pagination := { page := intValue page, limit := intValue limit, offset := offset } },
          w)

/-! ## The error-handling middleware -/

/-- The body of the response the middleware sends. -/
inductive ErrorBody where
  | validation (message : String)
  | notFound
  | invalidId
  | operational (message : String)
  | internal
  deriving DecidableEq

/-- The response the middleware sends: its status and its body. -/
structure ErrorResponse where
  status : Nat
  body : ErrorBody
  deriving DecidableEq

/-- The middleware of `errorHandler.js`, after it has logged the error. -/
def errorHandler (env : Env) (err : JsError) : ErrorResponse :=
  if err.name = "ValidationError" then
    { status := 400, body := .validation err.message }
  else if err.message ≠ "" && includes (toLowerCase env err.message) "comic not found" then
    { status := 404, body := .notFound }
  else if err.message ≠ "" && includes (toLowerCase env err.message) "invalid comic id" then
    { status := 400, body := .invalidId }
  else
    match err.isOperational, err.statusCode with
    | true, some (code + 1) => { status := code + 1, body := .operational err.message }
    | _, _ => { status := 500, body := .internal }

/-! ## The routes -/

/-- What a route of `routes/comics.js` answers: a record as JSON with its
status, or the response of the error-handling middleware. -/
inductive RouteResponse where
  | sent (status : Nat) (comic : Comic)
  | failed (response : ErrorResponse)
  deriving DecidableEq

/-- The status of the answer of a route. -/
def RouteResponse.status : RouteResponse → Nat
  | .sent status _ => status
  | .failed response => response.status

/-- The handler of `GET /api/comics/random`: `res.json(comic)` answers 200 with
the record, and `next(error)` hands a failure of `getRandom` to the error
handling of the application, the parameter `next`. -/
def randomRoute (next : JsError → ErrorResponse) (env : Env) (w : World) :
    RouteResponse × World :=
  match getRandom env w with
  | (.ok comic, w) => (.sent 200 comic, w)
  | (.error error, w) => (.failed (next error), w)

/-! ## The vocabulary of the specification -/

/-- The precondition of `getById` in the specification: `id` is a positive integer. -/
def isPositiveInteger : JsVal → Bool
  | .num (.int z) => decide (0 < z)
  | _ => false

/-- The freshness of a cache entry in the specification: `now - timestamp < TTL`,
with a TTL of five minutes. -/
def isFresh (now : Int) (entry : CacheEntry) : Bool :=
  decide (now - entry.timestamp < 300000)

/-- The key of a comic in the cache: `comic-{id}`. -/
def comicKey (env : Env) (id : JsVal) : String := "comic-" ++ toStr env id

/-- The URL of a comic upstream: `/{id}/info.0.json` under the base URL. -/
def comicUrl (env : Env) (id : JsVal) : String :=
  "https://xkcd.com/" ++ toStr env id ++ "/info.0.json"

/-- The URL of the latest comic upstream. -/
def latestUrl : String := "https://xkcd.com/info.0.json"

/-- The state after the validation and the cache lookup of `getById`. -/
def afterLookup (env : Env) (id : JsVal) (w : World) : World :=
  { w with byIdCalls := w.byIdCalls ++ [id], cacheReads := w.cacheReads ++ [comicKey env id] }

/-- The state after the cache lookup of `getLatest`. -/
def afterLatestLookup (w : World) : World :=
  { w with cacheReads := w.cacheReads ++ ["latest"] }

/-- The precondition of `search` on its query: a length between 1 and 100. -/
def isQuery (query : String) : Bool :=
  decide (1 ≤ jsLength query) && decide (jsLength query ≤ 100)

/-- The precondition of `search` on its limit: an integer between 1 and 50. -/
def isLimit : JsVal → Bool
  | .num (.int z) => decide (1 ≤ z) && decide (z ≤ 50)
  | _ => false

/-- The window of `search` for a latest id `N`: the ids `N`, `N - 1`, ... down
to `max(1, N - 99)`, the `min(N, 100)` most recent ones. -/
def windowIds (N : Int) : List JsVal :=
  (List.range (min N 100).toNat).map (fun (k : Nat) => JsVal.num (.int (N - (k : Int))))

/-- The ids `i`, `i - 1`, ... in descending order, `n` of them. -/
def descending (i : Int) (n : Nat) : List JsVal :=
  (List.range n).map (fun (k : Nat) => JsVal.num (.int (i - (k : Int))))

/-- The outcomes of `getById` called on each id of a list in turn, and the state
after the last call. -/
def windowOutcomes (env : Env) : List JsVal → World → List (Except JsError Comic) × World
  | [], w => ([], w)
  | id :: ids, w =>
    let first := getById env id w
    let rest := windowOutcomes env ids first.2
    (first.1 :: rest.1, rest.2)

/-- A comic matches a query when its lower-cased text, the title, a space and
the transcript, contains the lower-cased query as a substring. -/
def comicMatches (env : Env) (query : String) (comic : Comic) : Bool :=
  decide ((toLowerCase env query).data <:+:
    (toLowerCase env (toStr env comic.title ++ " " ++ toStr env comic.transcript)).data)

/-- The match sequence of a list of outcomes: the comics that were returned and
match the query, in the order of the outcomes. A failure gives nothing. -/
def matchesOf (env : Env) (query : String) (outcomes : List (Except JsError Comic)) :
    List Comic :=
  outcomes.filterMap (fun r =>
    match r with
    | .ok comic => if comicMatches env query comic then some comic else none
    | .error _ => none)

/-- The results `search` returns for a page, and nothing when it fails. -/
def pageResults (env : Env) (fuel : Nat) (query : String) (page limit : JsVal) (w : World) :
    List Comic :=
  match search env fuel query page limit w with
  | some (.ok result, _) => result.results
  | _ => []

/-- The results of pages 1 to `k` of a search, one after the other. -/
def firstPages (env : Env) (fuel : Nat) (query : String) (limit : JsVal) (w : World) :
    Nat → List Comic
  | 0 => []
  | k + 1 =>
    firstPages env fuel query limit w k
      ++ pageResults env fuel query (.num (.int ((k : Int) + 1))) limit w

/-- The falsy values of JavaScript, by their list: `undefined`, `null`, `false`,
`0`, `NaN` and the empty string. -/
def isFalsy : JsVal → Bool
  | .undefined => true
  | .null => true
  | .bool false => true
  | .num (.int 0) => true
  | .num .nan => true
  | .str "" => true
  | _ => false

/-- The nine properties of the raw payload that the specification names. -/
def rawFields : List String :=
  ["num", "title", "img", "alt", "transcript", "year", "month", "day", "safe_title"]

/-! ## Sample environments -/

/-- A JSON body with the nine properties of a comic. -/
def sampleBody (num : Int) (title transcript : String) : RawComic :=
  [("num", .num (.int num)), ("title", .str title), ("img", .str "https://imgs.xkcd.com/comics/test.png"),
   ("alt", .str "Test alt"), ("transcript", .str transcript), ("year", .str "2023"),
   ("month", .str "1"), ("day", .str "1"), ("safe_title", .str title)]

/-- A successful response with the given body. -/
def okResponse (body : RawComic) : FetchOutcome :=
  .resolved (some { ok := true, status := 200, statusText := "OK", json := .ok (some body) })

/-- A response with a failure status and no body. -/
def failResponse (status : Nat) (statusText : String) : FetchOutcome :=
  .resolved (some { ok := false, status := status, statusText := statusText,
                    json := .error (mkError "Unexpected end of JSON input") })

/-- An environment around a given upstream: the clock advances one second a
reading, the random source returns one half. -/
def sampleEnv (fetch : Nat → String → FetchOutcome) : Env :=
  { now := fun k => 1000 * (k : Int)
    fetch := fetch
    random := fun _ => 1 / 2
    lowerHost := fun s => s
    numberTextHost := fun _ => "?"
    stringToNumber := fun _ => .nan }

/-- The state of a service that has just started. -/
def emptyWorld : World :=
  { cache := [], cacheReads := [], requests := [], clock := 0, draws := 0, byIdCalls := [] }

/-- An upstream that answers every request with status 500. -/
def serverErrorEnv : Env := sampleEnv (fun _ _ => failResponse 500 "Server Error")

/-- An upstream that answers every request with status 404. -/
def notFoundEnv : Env := sampleEnv (fun _ _ => failResponse 404 "Not Found")

/-- An upstream that answers every request with comic 614. -/
def woodpeckerEnv : Env :=
  sampleEnv (fun _ _ => okResponse (sampleBody 614 "Woodpecker" "[[A man with a beret]]"))

/-- The record of comic 614 that `woodpeckerEnv` serves. -/
def woodpecker : Comic :=
  { id := .num (.int 614), title := .str "Woodpecker",
    img := .str "https://imgs.xkcd.com/comics/test.png", alt := .str "Test alt",
    transcript := .str "[[A man with a beret]]", year := .str "2023", month := .str "1",
    day := .str "1", safe_title := .str "Woodpecker" }

/-- The state after `getById(614)` on a service that has just started. -/
def woodpeckerWorld : World :=
  { cache := [("comic-614", { data := woodpecker, timestamp := 0 })]
    cacheReads := ["comic-614"]
    requests := ["https://xkcd.com/614/info.0.json"]
    clock := 1
    draws := 0
    byIdCalls := [.num (.int 614)] }

/-- An upstream with three comics: the latest is comic 3, comic 2 is missing
(status 404), comics 3 and 1 mention Python. -/
def archiveEnv : Env :=
  sampleEnv (fun _ url =>
    if url = "https://xkcd.com/info.0.json" then okResponse (sampleBody 3 "Python Test" "python code")
    else if url = "https://xkcd.com/3/info.0.json" then
      okResponse (sampleBody 3 "Python Test" "python code")
    else if url = "https://xkcd.com/1/info.0.json" then
      okResponse (sampleBody 1 "Python Alt" "python script")
    else failResponse 404 "Not Found")

/-- The record of comic 3 that `archiveEnv` serves. -/
def archiveLatest : Comic :=
  { id := .num (.int 3), title := .str "Python Test",
    img := .str "https://imgs.xkcd.com/comics/test.png", alt := .str "Test alt",
    transcript := .str "python code", year := .str "2023", month := .str "1",
    day := .str "1", safe_title := .str "Python Test" }

/-- The state after `getLatest()` on a service that has just started, upstream
`archiveEnv`. -/
def archiveWorld : World :=
  { cache := [("latest", { data := archiveLatest, timestamp := 0 })]
    cacheReads := ["latest"]
    requests := ["https://xkcd.com/info.0.json"]
    clock := 1
    draws := 0
    byIdCalls := [] }

/-- The record of comic 1 that `archiveEnv` serves. -/
def archiveFirst : Comic :=
  { id := .num (.int 1), title := .str "Python Alt",
    img := .str "https://imgs.xkcd.com/comics/test.png", alt := .str "Test alt",
    transcript := .str "python script", year := .str "2023", month := .str "1",
    day := .str "1", safe_title := .str "Python Alt" }

/-- The setting of the unit test of `getRandom`: the latest comic is 2750 and the
random source returns the double nearest to `1499 / 2750`. -/
def mockedEnv : Env :=
  { sampleEnv (fun _ url =>
      if url = "https://xkcd.com/info.0.json" then okResponse (sampleBody 2750 "Latest" "")
      else if url = "https://xkcd.com/1500/info.0.json" then
        okResponse (sampleBody 1500 "Random" "")
      else failResponse 404 "Not Found") with
    random := fun _ => 2454871215064863 / 4503599627370496 }

/-- The record of comic 2750 that `mockedEnv` serves. -/
def mockedLatest : Comic :=
  { id := .num (.int 2750), title := .str "Latest",
    img := .str "https://imgs.xkcd.com/comics/test.png", alt := .str "Test alt",
    transcript := .str "", year := .str "2023", month := .str "1",
    day := .str "1", safe_title := .str "Latest" }

/-- The record of comic 1500 that `mockedEnv` serves. -/
def mockedRandom : Comic :=
  { id := .num (.int 1500), title := .str "Random",
    img := .str "https://imgs.xkcd.com/comics/test.png", alt := .str "Test alt",
    transcript := .str "", year := .str "2023", month := .str "1",
    day := .str "1", safe_title := .str "Random" }

/-- The state after `getLatest()` on a service that has just started, upstream
`mockedEnv`. -/
def mockedWorld : World :=
  { cache := [("latest", { data := mockedLatest, timestamp := 0 })]
    cacheReads := ["latest"]
    requests := ["https://xkcd.com/info.0.json"]
    clock := 1
    draws := 0
    byIdCalls := [] }

/-- An upstream where every comic matches the query `match`: the latest is comic
25, and the `k`-th request of a search on a service that has just started, which
asks for comic `26 - k`, is answered with that comic. -/
def matchingEnv : Env :=
  sampleEnv (fun k url =>
    if url = "https://xkcd.com/info.0.json" then okResponse (sampleBody 25 "Match" "match")
    else okResponse (sampleBody (26 - (k : Int)) "Match" "match"))

/-- The record of comic 25 that `matchingEnv` serves. -/
def matchingLatest : Comic :=
  { id := .num (.int 25), title := .str "Match",
    img := .str "https://imgs.xkcd.com/comics/test.png", alt := .str "Test alt",
    transcript := .str "match", year := .str "2023", month := .str "1",
    day := .str "1", safe_title := .str "Match" }

/-- The state after `getLatest()` on a service that has just started, upstream
`matchingEnv`. -/
def matchingWorld : World :=
  { cache := [("latest", { data := matchingLatest, timestamp := 0 })]
    cacheReads := ["latest"]
    requests := ["https://xkcd.com/info.0.json"]
    clock := 1
    draws := 0
    byIdCalls := [] }

/-- A JSON body without `num`: a title, an image and an alternative text only. -/
def headlessBody : RawComic :=
  [("title", .str "No number"), ("img", .str "https://imgs.xkcd.com/comics/test.png"),
   ("alt", .str "Test alt")]

/-- An upstream that answers every request with status 200 and `headlessBody`. -/
def headlessEnv : Env := sampleEnv (fun _ _ => okResponse headlessBody)

/-- The record `processComic` builds from `headlessBody`. -/
def headlessComic : Comic :=
  { id := .undefined, title := .str "No number",
    img := .str "https://imgs.xkcd.com/comics/test.png", alt := .str "Test alt",
    transcript := .str "", year := .undefined, month := .undefined,
    day := .undefined, safe_title := .undefined }

/-- An upstream whose latest comic is 3 and where no comic can be fetched by id
(status 404), with a random source that returns 0. -/
def gapEnv : Env :=
  { sampleEnv (fun _ url =>
      if url = "https://xkcd.com/info.0.json" then okResponse (sampleBody 3 "Latest" "")
      else failResponse 404 "Not Found") with
    random := fun _ => 0 }

/-- The record of comic 3 that `gapEnv` serves. -/
def gapLatest : Comic :=
  { id := .num (.int 3), title := .str "Latest",
    img := .str "https://imgs.xkcd.com/comics/test.png", alt := .str "Test alt",
    transcript := .str "", year := .str "2023", month := .str "1",
    day := .str "1", safe_title := .str "Latest" }

/-- The state after `getLatest()` on a service that has just started, upstream
`gapEnv`. -/
def gapLatestWorld : World :=
  { cache := [("latest", { data := gapLatest, timestamp := 0 })]
    cacheReads := ["latest"]
    requests := ["https://xkcd.com/info.0.json"]
    clock := 1
    draws := 0
    byIdCalls := [] }

/-- The state after `getRandom()` on a service that has just started, upstream
`gapEnv`: comic 1 was asked for and not found. -/
def gapWorld : World :=
  { cache := [("latest", { data := gapLatest, timestamp := 0 })]
    cacheReads := ["latest", "comic-1"]
    requests := ["https://xkcd.com/info.0.json", "https://xkcd.com/1/info.0.json"]
    clock := 1
    draws := 1
    byIdCalls := [.num (.int 1)] }

/-- The state of a service that has run for a while with nothing cached: the
clock has been read seven times. -/
def lateWorld : World :=
  { cache := [], cacheReads := [], requests := [], clock := 7, draws := 0, byIdCalls := [] }

/-- The state after `getById(614)` in `lateWorld`, upstream `woodpeckerEnv`: the
entry carries the time of the eighth reading of the clock. -/
def lateWoodpeckerWorld : World :=
  { cache := [("comic-614", { data := woodpecker, timestamp := 7000 })]
    cacheReads := ["comic-614"]
    requests := ["https://xkcd.com/614/info.0.json"]
    clock := 8
    draws := 0
    byIdCalls := [.num (.int 614)] }

/-- The state after `getLatest()` in `lateWorld`, upstream `woodpeckerEnv`. -/
def lateLatestWorld : World :=
  { cache := [("latest", { data := woodpecker, timestamp := 7000 })]
    cacheReads := ["latest"]
    requests := ["https://xkcd.com/info.0.json"]
    clock := 8
    draws := 0
    byIdCalls := [] }

/-- An upstream whose latest comic has the id `2 ^ 53 + 2` and where no comic
can be fetched by id (status 404). The random source returns the largest double
below 1, and the host prints an integer above `2 ^ 53` by its decimal digits,
which is what the engine prints for `2 ^ 53 + 2`. -/
def farEnv : Env :=
  { sampleEnv (fun _ url =>
      if url = "https://xkcd.com/info.0.json" then
        okResponse (sampleBody 9007199254740994 "Latest" "")
      else failResponse 404 "Not Found") with
    random := fun _ => 9007199254740991 / 9007199254740992
    numberTextHost := fun n =>
      match n with
      | .int z => toString z
      | _ => "?" }

/-- The record of the latest comic that `farEnv` serves. -/
def farLatest : Comic :=
  { id := .num (.int 9007199254740994), title := .str "Latest",
    img := .str "https://imgs.xkcd.com/comics/test.png", alt := .str "Test alt",
    transcript := .str "", year := .str "2023", month := .str "1",
    day := .str "1", safe_title := .str "Latest" }

/-- The state after `getLatest()` on a service that has just started, upstream
`farEnv`. -/
def farWorld : World :=
  { cache := [("latest", { data := farLatest, timestamp := 0 })]
    cacheReads := ["latest"]
    requests := ["https://xkcd.com/info.0.json"]
    clock := 1
    draws := 0
    byIdCalls := [] }

/-- An upstream whose latest comic has the id `2 ^ 53 + 4` and where no comic
can be fetched by id (status 404); the host prints an integer above `2 ^ 53` by
its decimal digits, which is what the engine prints for `2 ^ 53 + 4`. -/
def stuckEnv : Env :=
  { sampleEnv (fun _ url =>
      if url = "https://xkcd.com/info.0.json" then
        okResponse (sampleBody 9007199254740996 "Latest" "")
      else failResponse 404 "Not Found") with
    numberTextHost := fun n =>
      match n with
      | .int z => toString z
      | _ => "?" }

/-- The record of the latest comic that `stuckEnv` serves. -/
def stuckLatest : Comic :=
  { id := .num (.int 9007199254740996), title := .str "Latest",
    img := .str "https://imgs.xkcd.com/comics/test.png", alt := .str "Test alt",
    transcript := .str "", year := .str "2023", month := .str "1",
    day := .str "1", safe_title := .str "Latest" }

/-- The state after `getLatest()` on a service that has just started, upstream
`stuckEnv`. -/
def stuckWorld : World :=
  { cache := [("latest", { data := stuckLatest, timestamp := 0 })]
    cacheReads := ["latest"]
    requests := ["https://xkcd.com/info.0.json"]
    clock := 1
    draws := 0
    byIdCalls := [] }

/-! ## Lemmas on strings and on the cache -/

theorem failed_prefix_ne_invalid (m : String) :
    "Failed to fetch comic: " ++ m ≠ "Invalid comic ID" := by
  intro h
  have h2 := congrArg String.data h
  rw [String.data_append] at h2
  have h3 := congrArg List.head? h2
  simp at h3

theorem failed_prefix_ne_not_found (m : String) :
    "Failed to fetch comic: " ++ m ≠ "Comic not found" := by
  intro h
  have h2 := congrArg String.data h
  rw [String.data_append] at h2
  have h3 := congrArg List.head? h2
  simp at h3

theorem failed_prefix_not_http (m : String) :
    startsWith ("Failed to fetch comic: " ++ m) "HTTP" = false := by
  unfold startsWith
  rw [String.data_append]
  rfl

theorem byIdCatch_message_ne_invalid (e : JsError) :
    (byIdCatch e).message ≠ "Invalid comic ID" := by
  unfold byIdCatch
  split
  · rename_i h
    intro heq
    rw [heq] at h
    revert h
    decide
  · exact failed_prefix_ne_invalid _

theorem fetchById_message_ne_invalid (env : Env) (id : JsVal) (key : String) (w : World)
    (e : JsError) (h : (fetchById env id key w).1 = .error e) :
    e.message ≠ "Invalid comic ID" := by
  unfold fetchById at h
  simp only at h
  split at h
  · cases h
  · injection h with h
    rw [← h]
    exact byIdCatch_message_ne_invalid _

theorem valid_id_check (env : Env) (z : Int) (hz : 0 < z) :
    (!numberIsInteger (.num (.int z)) || JsNum.lt (toNumber env (.num (.int z))) (.int 1))
      = false := by
  simp [numberIsInteger, toNumber, JsNum.lt]; omega

theorem invalid_id_check (env : Env) (id : JsVal) (h : isPositiveInteger id = false) :
    (!numberIsInteger id || JsNum.lt (toNumber env id) (.int 1)) = true := by
  cases id with
  | num n =>
    cases n with
    | int z =>
      have : ¬ 0 < z := by simpa [isPositiveInteger] using h
      simp [numberIsInteger, toNumber, JsNum.lt]; omega
    | _ => simp [numberIsInteger]
  | _ => simp [numberIsInteger]

theorem isPositiveInteger_iff (id : JsVal) :
    isPositiveInteger id = true ↔ ∃ z : Int, id = .num (.int z) ∧ 0 < z := by
  constructor
  · intro hp
    cases id with
    | num n =>
      cases n with
      | int z => exact ⟨z, rfl, by simpa [isPositiveInteger] using hp⟩
      | _ => simp [isPositiveInteger] at hp
    | _ => simp [isPositiveInteger] at hp
  · rintro ⟨z, rfl, hz⟩
    simpa [isPositiveInteger] using hz

theorem getById_of_invalid (env : Env) (id : JsVal) (w : World)
    (h : isPositiveInteger id = false) :
    getById env id w
      = (.error (mkError "Invalid comic ID"), { w with byIdCalls := w.byIdCalls ++ [id] }) := by
  simp only [getById, invalid_id_check env id h, if_true]

theorem getById_of_miss (env : Env) (id : JsVal) (w : World)
    (h : isPositiveInteger id = true) (hc : w.cache.get (comicKey env id) = none) :
    getById env id w = fetchById env id (comicKey env id) (afterLookup env id w) := by
  obtain ⟨z, rfl, hz⟩ := (isPositiveInteger_iff id).1 h
  have hv := valid_id_check env z hz
  unfold comicKey at hc
  simp only [getById, hv, hc, comicKey, afterLookup]
  rfl

theorem getById_of_hit (env : Env) (id : JsVal) (w : World) (entry : CacheEntry)
    (h : isPositiveInteger id = true) (hc : w.cache.get (comicKey env id) = some entry)
    (hf : env.now w.clock - entry.timestamp < cacheTimeout) :
    getById env id w
      = (.ok entry.data, { afterLookup env id w with clock := w.clock + 1 }) := by
  obtain ⟨z, rfl, hz⟩ := (isPositiveInteger_iff id).1 h
  have hv := valid_id_check env z hz
  unfold comicKey at hc
  simp only [getById, hv, hc, comicKey, afterLookup]
  simp [hf]

theorem getById_of_stale (env : Env) (id : JsVal) (w : World) (entry : CacheEntry)
    (h : isPositiveInteger id = true) (hc : w.cache.get (comicKey env id) = some entry)
    (hf : ¬ env.now w.clock - entry.timestamp < cacheTimeout) :
    getById env id w
      = fetchById env id (comicKey env id)
          { afterLookup env id w with clock := w.clock + 1 } := by
  obtain ⟨z, rfl, hz⟩ := (isPositiveInteger_iff id).1 h
  have hv := valid_id_check env z hz
  unfold comicKey at hc
  simp only [getById, hv, hc, comicKey, afterLookup]
  simp [hf]

theorem getLatest_of_miss (env : Env) (w : World) (hc : w.cache.get "latest" = none) :
    getLatest env w = fetchLatest env (afterLatestLookup w) := by
  simp only [getLatest, hc, afterLatestLookup]

theorem getLatest_of_hit (env : Env) (w : World) (entry : CacheEntry)
    (hc : w.cache.get "latest" = some entry)
    (hf : env.now w.clock - entry.timestamp < cacheTimeout) :
    getLatest env w = (.ok entry.data, { afterLatestLookup w with clock := w.clock + 1 }) := by
  simp only [getLatest, hc, afterLatestLookup]
  simp [hf]

theorem getLatest_of_stale (env : Env) (w : World) (entry : CacheEntry)
    (hc : w.cache.get "latest" = some entry)
    (hf : ¬ env.now w.clock - entry.timestamp < cacheTimeout) :
    getLatest env w = fetchLatest env { afterLatestLookup w with clock := w.clock + 1 } := by
  simp only [getLatest, hc, afterLatestLookup]
  simp [hf]

theorem lookup_append_of_not_any (c : Cache) (key : String) (entry : CacheEntry)
    (h : c.any (fun p => p.1 == key) = false) :
    List.lookup key (c ++ [(key, entry)]) = some entry := by
  induction c with
  | nil => simp [List.lookup]
  | cons p c ih =>
    obtain ⟨k, v⟩ := p
    simp only [List.any_cons, Bool.or_eq_false_iff] at h
    have hk : (key == k) = false := by
      have := h.1
      simp only [beq_eq_false_iff_ne, ne_eq] at this ⊢
      exact fun e => this e.symm
    simp only [List.cons_append, List.lookup, hk]
    exact ih h.2

theorem lookup_map_of_any (c : Cache) (key : String) (entry : CacheEntry)
    (h : c.any (fun p => p.1 == key) = true) :
    List.lookup key (c.map (fun p => if p.1 == key then (key, entry) else p)) = some entry := by
  induction c with
  | nil => simp at h
  | cons p c ih =>
    obtain ⟨k, v⟩ := p
    by_cases hk : k = key
    · subst hk
      have e : (if ((k, v) : String × CacheEntry).1 == k then (k, entry) else (k, v))
          = (k, entry) := by simp
      rw [List.map_cons, e, List.lookup_cons]
      simp
    · have hk1 : (k == key) = false := by simpa using hk
      have hk2 : (key == k) = false := by simpa using fun e : key = k => hk e.symm
      have e : (if ((k, v) : String × CacheEntry).1 == key then (key, entry) else (k, v))
          = (k, v) := by simp [hk]
      rw [List.map_cons, e, List.lookup_cons, hk2]
      apply ih
      simpa [hk1] using h

theorem Cache.get_set_self (c : Cache) (key : String) (entry : CacheEntry) :
    (c.set key entry).get key = some entry := by
  unfold Cache.set Cache.get
  split
  · rename_i h
    exact lookup_map_of_any c key entry h
  · rename_i h
    exact lookup_append_of_not_any c key entry (by simpa only [Bool.not_eq_true] using h)

theorem fetchById_requests (env : Env) (id : JsVal) (key : String) (w : World) :
    (fetchById env id key w).2.requests = w.requests ++ [comicUrl env id] := by
  unfold fetchById
  simp only
  split <;> rfl

theorem fetchLatest_requests (env : Env) (w : World) :
    (fetchLatest env w).2.requests = w.requests ++ [latestUrl] := by
  unfold fetchLatest
  simp only
  split <;> rfl

theorem fetchById_ok_cache (env : Env) (id : JsVal) (key : String) (w w1 : World) (c : Comic)
    (h : fetchById env id key w = (.ok c, w1)) :
    w1.cache.get key = some { data := c, timestamp := env.now w.clock } := by
  unfold fetchById at h
  simp only at h
  split at h
  · injection h with h1 h2
    injection h1 with h1
    subst h1
    subst h2
    exact Cache.get_set_self _ _ _
  · injection h with h1 h2
    cases h1

theorem fetchById_ok_clock (env : Env) (id : JsVal) (key : String) (w w1 : World) (c : Comic)
    (h : fetchById env id key w = (.ok c, w1)) : w1.clock = w.clock + 1 := by
  unfold fetchById at h
  simp only at h
  split at h
  · injection h with h1 h2
    subst h2
    rfl
  · injection h with h1 h2
    cases h1

theorem fetchLatest_ok_cache (env : Env) (w w1 : World) (c : Comic)
    (h : fetchLatest env w = (.ok c, w1)) :
    w1.cache.get "latest" = some { data := c, timestamp := env.now w.clock } := by
  unfold fetchLatest at h
  simp only at h
  split at h
  · injection h with h1 h2
    injection h1 with h1
    subst h1
    subst h2
    exact Cache.get_set_self _ _ _
  · injection h with h1 h2
    cases h1

theorem fetchLatest_ok_clock (env : Env) (w w1 : World) (c : Comic)
    (h : fetchLatest env w = (.ok c, w1)) : w1.clock = w.clock + 1 := by
  unfold fetchLatest at h
  simp only at h
  split at h
  · injection h with h1 h2
    subst h2
    rfl
  · injection h with h1 h2
    cases h1

theorem isFresh_iff (now : Int) (entry : CacheEntry) :
    isFresh now entry = true ↔ now - entry.timestamp < cacheTimeout := by
  simp [isFresh, cacheTimeout]

theorem isFresh_false_iff (now : Int) (entry : CacheEntry) :
    isFresh now entry = false ↔ ¬ now - entry.timestamp < cacheTimeout := by
  simp [isFresh, cacheTimeout]

/-- The state in which `getById` sends its request, when the cache has no fresh
entry for a positive integer `id`; the cache and the requests are those of `w`. -/
theorem getById_no_fresh_entry (env : Env) (id : JsVal) (w : World)
    (hid : isPositiveInteger id = true)
    (hc : ∀ entry, w.cache.get (comicKey env id) = some entry →
      isFresh (env.now w.clock) entry = false) :
    ∃ w0, getById env id w = fetchById env id (comicKey env id) w0 ∧
      w0.cache = w.cache ∧ w0.requests = w.requests := by
  cases hg : w.cache.get (comicKey env id) with
  | none => exact ⟨_, getById_of_miss env id w hid hg, rfl, rfl⟩
  | some entry =>
    exact ⟨_, getById_of_stale env id w entry hid hg ((isFresh_false_iff _ _).1 (hc entry hg)),
      rfl, rfl⟩

theorem fetchById_of_error (env : Env) (id : JsVal) (key : String) (w : World) (e : JsError)
    (h : byIdBody (env.fetch w.requests.length (comicUrl env id)) = .error e) :
    fetchById env id key w
      = (.error (byIdCatch e), { w with requests := w.requests ++ [comicUrl env id] }) := by
  have hu : baseUrl ++ "/" ++ toStr env id ++ "/info.0.json" = comicUrl env id := rfl
  unfold fetchById
  simp only [hu, h]

/-- What `getById` rejects with when the upstream status is a failure other than
404: the prefix `Failed to fetch comic: ` twice. -/
theorem getById_http_error (env : Env) (id : JsVal) (w : World) (r : Response)
    (hid : isPositiveInteger id = true)
    (hc : ∀ entry, w.cache.get (comicKey env id) = some entry →
      isFresh (env.now w.clock) entry = false)
    (hr : env.fetch w.requests.length (comicUrl env id) = .resolved (some r))
    (hok : r.ok = false) (hs : r.status ≠ 404) :
    (getById env id w).1 = .error (mkError ("Failed to fetch comic: " ++
      ("Failed to fetch comic: HTTP " ++ toString r.status ++ ": " ++ r.statusText))) := by
  obtain ⟨w0, h0, _, hreq⟩ := getById_no_fresh_entry env id w hid hc
  have hb : byIdBody (env.fetch w0.requests.length (comicUrl env id))
      = .error (mkError ("Failed to fetch comic: HTTP " ++ toString r.status ++ ": "
          ++ r.statusText)) := by
    rw [hreq, hr]
    simp [byIdBody, hs, hok]
  rw [h0, fetchById_of_error env id _ w0 _ hb]
  have hne : ("Failed to fetch comic: HTTP " ++ toString r.status ++ ": " ++ r.statusText)
      ≠ "Comic not found" := by
    rw [show "Failed to fetch comic: HTTP " = "Failed to fetch comic: " ++ "HTTP " from rfl,
      String.append_assoc, String.append_assoc]
    exact failed_prefix_ne_not_found _
  have hnh : startsWith ("Failed to fetch comic: HTTP " ++ toString r.status ++ ": "
      ++ r.statusText) "HTTP" = false := by
    rw [show "Failed to fetch comic: HTTP " = "Failed to fetch comic: " ++ "HTTP " from rfl,
      String.append_assoc, String.append_assoc]
    exact failed_prefix_not_http _
  simp [byIdCatch, mkError, hne, hnh]

/-! ## Lemmas on the rounding of a product -/

theorem roundHalfEven_le (y : ℚ) : (roundHalfEven y : ℚ) ≤ y + 1 / 2 := by
  unfold roundHalfEven
  have h1 := Int.floor_le y
  have h2 := Int.lt_floor_add_one y
  split
  · linarith
  · split
    · push_cast; linarith
    · split
      · linarith
      · push_cast; linarith

theorem roundHalfEven_nonneg (y : ℚ) (h : 0 ≤ y) : 0 ≤ roundHalfEven y := by
  unfold roundHalfEven
  have h1 : 0 ≤ ⌊y⌋ := Int.floor_nonneg.2 h
  split
  · exact h1
  · split
    · omega
    · split <;> omega

theorem nearestDouble_zero : nearestDouble 0 = 0 := by
  simp [nearestDouble, roundHalfEven]

theorem ulp_pos (x : ℚ) : (0 : ℚ) < 2 ^ ulpExponent x := by positivity

theorem ulp_lt (x : ℚ) (N : ℚ) (hx : 0 < x) (hxN : x < N) (hN : 1 ≤ N) :
    (2 : ℚ) ^ ulpExponent x < N / 2 ^ 52 := by
  unfold ulpExponent
  rcases max_cases (Int.log 2 |x| - 52) (-1074) with ⟨h, _⟩ | ⟨h, _⟩
  · rw [h, zpow_sub₀ (by norm_num : (2 : ℚ) ≠ 0)]
    have h1 : ((2 : ℕ) : ℚ) ^ Int.log 2 |x| ≤ |x| :=
      Int.zpow_log_le_self (by norm_num) (abs_pos.2 (ne_of_gt hx))
    rw [abs_of_pos hx] at h1
    have h2 : (2 : ℚ) ^ Int.log 2 x < N := lt_of_le_of_lt (by exact_mod_cast h1) hxN
    rw [abs_of_pos hx]
    have h3 : (2 : ℚ) ^ (52 : ℤ) = 2 ^ 52 := by norm_num
    rw [h3]
    exact div_lt_div_of_pos_right h2 (by positivity)
  · rw [h]
    have h1 : (2 : ℚ) ^ (-1074 : ℤ) < 1 / 2 ^ 52 := by
      have h52 : (1 : ℚ) / 2 ^ 52 = 2 ^ (-52 : ℤ) := by
        rw [zpow_neg, one_div]; norm_cast
      rw [h52]
      exact zpow_lt_zpow_right₀ (by norm_num) (by norm_num)
    calc (2 : ℚ) ^ (-1074 : ℤ) < 1 / 2 ^ 52 := h1
      _ ≤ N / 2 ^ 52 := div_le_div_of_nonneg_right hN (by positivity)

theorem nearestDouble_product (r : ℚ) (N : ℚ) (h0 : 0 ≤ r) (h1 : r ≤ 1 - 1 / 2 ^ 53)
    (hN : 1 ≤ N) : 0 ≤ nearestDouble (r * N) ∧ nearestDouble (r * N) < N := by
  have hu := ulp_pos (r * N)
  have hNpos : (0 : ℚ) < N := by linarith
  have hx0 : 0 ≤ r * N := mul_nonneg h0 hNpos.le
  constructor
  · unfold nearestDouble
    apply mul_nonneg _ hu.le
    exact_mod_cast roundHalfEven_nonneg _ (div_nonneg hx0 hu.le)
  · rcases eq_or_lt_of_le hx0 with hx | hx
    · rw [← hx, nearestDouble_zero]
      exact hNpos
    · have hxN : r * N ≤ N - N / 2 ^ 53 := by
        have : r * N ≤ (1 - 1 / 2 ^ 53) * N := mul_le_mul_of_nonneg_right h1 hNpos.le
        linarith [this]
      have hlt : r * N < N := by
        have : (0 : ℚ) < N / 2 ^ 53 := by positivity
        linarith
      have hul := ulp_lt (r * N) N hx hlt hN
      have hr := roundHalfEven_le (r * N / 2 ^ ulpExponent (r * N))
      unfold nearestDouble
      have h2 : (roundHalfEven (r * N / 2 ^ ulpExponent (r * N)) : ℚ) * 2 ^ ulpExponent (r * N)
          ≤ r * N + 2 ^ ulpExponent (r * N) / 2 := by
        have := mul_le_mul_of_nonneg_right hr hu.le
        rw [add_mul, div_mul_cancel₀ _ (ne_of_gt hu)] at this
        linarith
      have h3 : (2 : ℚ) ^ ulpExponent (r * N) / 2 < N / 2 ^ 53 := by
        have : N / (2 : ℚ) ^ 53 = N / 2 ^ 52 / 2 := by
          rw [div_div]; norm_num
        rw [this]
        linarith
      linarith

theorem double_below_one (r : ℚ) (hd : IsDouble r) (h1 : r < 1) : r ≤ 1 - 1 / 2 ^ 53 := by
  obtain ⟨m, e, hm, _, _, rfl⟩ := hd
  have hpos : (0 : ℚ) < 2 ^ 53 := by positivity
  have h53 : (2 : ℚ) ^ (53 : ℤ) = 2 ^ 53 := by norm_cast
  by_cases he : -53 ≤ e
  · obtain ⟨j, hj⟩ : ∃ j : ℕ, e = (j : ℤ) - 53 := ⟨(e + 53).toNat, by omega⟩
    have h2 : (m : ℚ) * 2 ^ e * 2 ^ 53 = ((m * 2 ^ j : ℤ) : ℚ) := by
      rw [hj, zpow_sub₀ (by norm_num : (2 : ℚ) ≠ 0), zpow_natCast, h53]
      push_cast
      field_simp
    have h3 : (m : ℚ) * 2 ^ e * 2 ^ 53 < 2 ^ 53 := by nlinarith
    rw [h2] at h3
    have h4 : m * 2 ^ j < (2 : ℤ) ^ 53 := by exact_mod_cast h3
    have h5 : m * 2 ^ j ≤ (2 : ℤ) ^ 53 - 1 := by omega
    have h6 : ((m * 2 ^ j : ℤ) : ℚ) ≤ 2 ^ 53 - 1 := by exact_mod_cast h5
    rw [← h2] at h6
    have h7 : (1 - 1 / 2 ^ 53 : ℚ) * 2 ^ 53 = 2 ^ 53 - 1 := by field_simp
    rw [← h7] at h6
    exact le_of_mul_le_mul_right h6 hpos
  · have he2 : e ≤ -54 := by omega
    have hm2 : (m : ℚ) < 2 ^ 53 := by
      have : m < 2 ^ 53 := lt_of_le_of_lt (le_abs_self m) hm
      exact_mod_cast this
    have hle : (2 : ℚ) ^ e ≤ 2 ^ (-54 : ℤ) := zpow_le_zpow_right₀ (by norm_num) he2
    have h54 : (2 : ℚ) ^ (-54 : ℤ) = 1 / 2 ^ 54 := by
      rw [zpow_neg, one_div]; norm_cast
    have hpe : (0 : ℚ) < 2 ^ e := by positivity
    have h8 : (m : ℚ) * 2 ^ e ≤ 2 ^ 53 * (1 / 2 ^ 54) := by
      rw [h54] at hle
      by_cases hm0 : (0 : ℚ) ≤ m
      · exact mul_le_mul hm2.le hle hpe.le hpos.le
      · have : (m : ℚ) * 2 ^ e ≤ 0 := mul_nonpos_of_nonpos_of_nonneg (by linarith) hpe.le
        have : (0 : ℚ) ≤ 2 ^ 53 * (1 / 2 ^ 54) := by positivity
        linarith
    have h9 : (2 : ℚ) ^ 53 * (1 / 2 ^ 54) ≤ 1 - 1 / 2 ^ 53 := by norm_num
    linarith

theorem log_of_bounds (x : ℚ) (k : ℤ) (hx : 0 < x) (h1 : (2 : ℚ) ^ k ≤ x)
    (h2 : x < 2 ^ (k + 1)) : Int.log 2 x = k := by
  apply le_antisymm
  · have := (Int.lt_zpow_iff_log_lt (b := 2) (by norm_num) hx (x := k + 1)).1
      (by exact_mod_cast h2)
    omega
  · exact (Int.zpow_le_iff_le_log (b := 2) (by norm_num) hx).1 (by exact_mod_cast h1)

/-- The product of the unit test: the double nearest to `1499 / 2750`, times
2750, is rounded to 1499 (the exact product is a little below 1499). -/
theorem mocked_product :
    nearestDouble ((2454871215064863 / 4503599627370496 : ℚ) * ((2750 : Int) : ℚ)) = 1499 := by
  have hx : ((2454871215064863 / 4503599627370496 : ℚ) * ((2750 : Int) : ℚ))
      = 3375447920714186625 / 2251799813685248 := by norm_num
  rw [hx]
  have hlog : Int.log 2 |(3375447920714186625 / 2251799813685248 : ℚ)| = 10 := by
    rw [abs_of_pos (by norm_num)]
    apply log_of_bounds _ _ (by norm_num) <;> norm_num
  have hu : ulpExponent (3375447920714186625 / 2251799813685248 : ℚ) = -42 := by
    rw [ulpExponent, hlog]
    decide
  have hy : (3375447920714186625 / 2251799813685248 : ℚ) / 2 ^ (-42 : ℤ)
      = 3375447920714186625 / 512 := by
    rw [zpow_neg]
    norm_num
  have hfloor : ⌊(3375447920714186625 / 512 : ℚ)⌋ = 6592671720144895 := by
    rw [Int.floor_eq_iff]
    constructor <;> norm_num
  have hround : roundHalfEven (3375447920714186625 / 512 : ℚ) = 6592671720144896 := by
    unfold roundHalfEven
    rw [hfloor]
    norm_num
  rw [nearestDouble, hu, hy, hround, zpow_neg]
  norm_num

/-- The exact product of the same two values has floor 1498: without the
rounding of the engine the id would be 1499, not the 1500 the test expects. -/
theorem mocked_exact_product :
    ⌊(2454871215064863 / 4503599627370496 : ℚ) * ((2750 : Int) : ℚ)⌋ = 1498 := by
  rw [Int.floor_eq_iff]
  constructor <;> norm_num

theorem floor_ofRat (q : ℚ) : JsNum.floor (JsNum.ofRat q) = .int ⌊q⌋ := by
  unfold JsNum.ofRat
  split
  · rename_i h
    have hq : ((q.num : ℤ) : ℚ) = q := (Rat.den_eq_one_iff q).1 h
    rw [JsNum.floor]
    congr 1
    rw [← hq, Int.floor_intCast, hq]
  · rfl

theorem truthy_of_isFalsy (v : JsVal) (h : isFalsy v = true) : v.truthy = false := by
  unfold isFalsy at h
  split at h <;> first | exact absurd h (by decide) | rfl

/-! ## Lemmas on the rounding of integers -/

theorem roundHalfEven_int (z : Int) : roundHalfEven (z : ℚ) = z := by
  unfold roundHalfEven
  simp

theorem roundHalfEven_ge (y : ℚ) : y - 1 / 2 ≤ (roundHalfEven y : ℚ) := by
  unfold roundHalfEven
  have h1 := Int.floor_le y
  have h2 := Int.lt_floor_add_one y
  split
  · linarith
  · rename_i h3
    split
    · push_cast; linarith
    · rename_i h4
      have h5 : y - ⌊y⌋ = 1 / 2 := le_antisymm (not_lt.1 h4) (not_lt.1 h3)
      split
      · linarith
      · push_cast; linarith

theorem ofRat_int (z : Int) : JsNum.ofRat (z : ℚ) = .int z := by
  unfold JsNum.ofRat
  simp

theorem two_pow_53 : (2 : Int) ^ 53 = 9007199254740992 := by norm_num

/-- An integer of magnitude up to `2 ^ 53` is a double: rounding leaves it as it is. -/
theorem nearestDouble_int (z : Int) (h : |z| ≤ 2 ^ 53) : nearestDouble (z : ℚ) = z := by
  by_cases hz : z = 0
  · subst hz
    simpa using nearestDouble_zero
  have hpos : (0 : ℚ) < |(z : ℚ)| := abs_pos.2 (by exact_mod_cast hz)
  have habs : |(z : ℚ)| = ((|z| : Int) : ℚ) := by push_cast; rfl
  have hone : (1 : ℚ) ≤ |(z : ℚ)| := by
    rw [habs]
    have : 1 ≤ |z| := Int.one_le_abs hz
    exact_mod_cast this
  have hle : |(z : ℚ)| ≤ 2 ^ 53 := by
    rw [habs]
    exact_mod_cast h
  have hL0 : 0 ≤ Int.log 2 |(z : ℚ)| :=
    (Int.zpow_le_iff_le_log (b := 2) (by norm_num) hpos).1 (by simpa using hone)
  have hL54 : Int.log 2 |(z : ℚ)| < 54 :=
    (Int.lt_zpow_iff_log_lt (b := 2) (by norm_num) hpos).1 (by
      have : (2 : ℚ) ^ 53 < ((2 : ℕ) : ℚ) ^ (54 : ℤ) := by norm_num
      exact lt_of_le_of_lt hle this)
  have hself : ((2 : ℕ) : ℚ) ^ Int.log 2 |(z : ℚ)| ≤ |(z : ℚ)| :=
    Int.zpow_log_le_self (by norm_num) hpos
  have hu : ulpExponent (z : ℚ) = Int.log 2 |(z : ℚ)| - 52 := by
    unfold ulpExponent
    exact max_eq_left (by omega)
  obtain ⟨m, hm⟩ : ∃ m : Int, (z : ℚ) / 2 ^ ulpExponent (z : ℚ) = m := by
    rw [hu]
    by_cases h52 : Int.log 2 |(z : ℚ)| ≤ 52
    · obtain ⟨n, hn⟩ : ∃ n : ℕ, Int.log 2 |(z : ℚ)| - 52 = -(n : ℤ) :=
        ⟨(52 - Int.log 2 |(z : ℚ)|).toNat, by omega⟩
      refine ⟨z * 2 ^ n, ?_⟩
      rw [hn, zpow_neg, zpow_natCast, div_inv_eq_mul]
      push_cast
      rfl
    · have h53 : Int.log 2 |(z : ℚ)| = 53 := by omega
      rw [h53] at hself ⊢
      have habs2 : |(z : ℚ)| = 2 ^ 53 := le_antisymm hle (by
        have : ((2 : ℕ) : ℚ) ^ (53 : ℤ) = 2 ^ 53 := by norm_num
        rw [← this]
        exact hself)
      have hz2 : |z| = 2 ^ 53 := by
        rw [habs] at habs2
        exact_mod_cast habs2
      rcases abs_eq (by norm_num : (0 : Int) ≤ 2 ^ 53) |>.1 hz2 with h1 | h1
      · refine ⟨2 ^ 52, ?_⟩
        rw [h1]
        norm_num
      · refine ⟨-2 ^ 52, ?_⟩
        rw [h1]
        norm_num
  unfold nearestDouble
  rw [hm, roundHalfEven_int, ← hm]
  have hne : (2 : ℚ) ^ ulpExponent (z : ℚ) ≠ 0 := ne_of_gt (ulp_pos _)
  exact div_mul_cancel₀ _ hne

theorem roundDouble_int (z : Int) (h : |z| ≤ 2 ^ 53) : roundDouble (z : ℚ) = .int z := by
  unfold roundDouble
  rw [nearestDouble_int z h, if_neg, ofRat_int]
  rw [not_le]
  have h1 : |(z : ℚ)| ≤ 2 ^ 53 := by
    have : |(z : ℚ)| = ((|z| : Int) : ℚ) := by push_cast; rfl
    rw [this]
    exact_mod_cast h
  exact lt_of_le_of_lt h1 (pow_lt_pow_right₀ (by norm_num) (by norm_num))

theorem subInt_int (z k : Int) (h : |z - k| ≤ 2 ^ 53) :
    JsNum.subInt (.int z) k = .int (z - k) :=
  roundDouble_int (z - k) h

theorem addInt_int (z k : Int) (h : |z + k| ≤ 2 ^ 53) :
    JsNum.addInt (.int z) k = .int (z + k) :=
  roundDouble_int (z + k) h

theorem mulRat_int (a z : Int) (h : |a * z| ≤ 2 ^ 53) :
    JsNum.mulRat (a : ℚ) (.int z) = .int (a * z) := by
  show roundDouble ((a : ℚ) * (z : ℚ)) = .int (a * z)
  rw [← Int.cast_mul]
  exact roundDouble_int (a * z) h

theorem take_min_length {α : Type} (M : List α) (n : Nat) :
    M.take (min n M.length) = M.take n := by
  by_cases h : n ≤ M.length
  · rw [min_eq_left h]
  · have h2 : M.length ≤ n := by omega
    rw [min_eq_right h2, List.take_of_length_le h2, List.take_of_length_le (le_refl _)]

/-- Rounding a number that is at least 1 loses at most half of it. -/
theorem nearestDouble_ge_half (x : ℚ) (hx : 1 ≤ x) : x / 2 ≤ nearestDouble x := by
  have hpos : 0 < x := by linarith
  have hu := ulp_pos x
  have hul : (2 : ℚ) ^ ulpExponent x ≤ x := by
    unfold ulpExponent
    rcases max_cases (Int.log 2 |x| - 52) (-1074) with ⟨h, _⟩ | ⟨h, _⟩
    · rw [h, abs_of_pos hpos]
      have h1 : ((2 : ℕ) : ℚ) ^ Int.log 2 x ≤ x := Int.zpow_log_le_self (by norm_num) hpos
      have h2 : (2 : ℚ) ^ (Int.log 2 x - 52) ≤ 2 ^ Int.log 2 x :=
        zpow_le_zpow_right₀ (by norm_num) (by omega)
      exact le_trans h2 (by exact_mod_cast h1)
    · rw [h]
      have h1 : (2 : ℚ) ^ (-1074 : ℤ) ≤ 2 ^ (0 : ℤ) :=
        zpow_le_zpow_right₀ (by norm_num) (by norm_num)
      rw [zpow_zero] at h1
      linarith
  have hr := roundHalfEven_ge (x / 2 ^ ulpExponent x)
  unfold nearestDouble
  have h2 : (x / 2 ^ ulpExponent x - 1 / 2) * 2 ^ ulpExponent x
      ≤ (roundHalfEven (x / 2 ^ ulpExponent x) : ℚ) * 2 ^ ulpExponent x :=
    mul_le_mul_of_nonneg_right hr hu.le
  rw [sub_mul, div_mul_cancel₀ _ (ne_of_gt hu)] at h2
  linarith

theorem roundDouble_ge_half (x : ℚ) (hx : 1 ≤ x) :
    roundDouble x = .posInf ∨ ∃ y : ℚ, roundDouble x = JsNum.ofRat y ∧ x / 2 ≤ y := by
  unfold roundDouble
  by_cases h : (2 : ℚ) ^ 1024 ≤ |nearestDouble x|
  · left
    rw [if_pos h, if_pos (by linarith)]
  · right
    rw [if_neg h]
    exact ⟨nearestDouble x, rfl, nearestDouble_ge_half x hx⟩

theorem mulRat_ofRat (r y : ℚ) : JsNum.mulRat r (JsNum.ofRat y) = roundDouble (r * y) := by
  unfold JsNum.ofRat
  split
  · rename_i h
    show roundDouble (r * (y.num : ℚ)) = roundDouble (r * y)
    have hy : ((y.num : Int) : ℚ) = y := by
      have := Rat.num_div_den y
      rw [h] at this
      simpa using this
    rw [hy]
  · rfl

theorem sliceIndex_ofRat_large (len : Nat) (y : ℚ) (h : (len : ℚ) ≤ y) :
    sliceIndex len (JsNum.ofRat y) = len := by
  have h0 : (0 : ℚ) ≤ y := le_trans (Nat.cast_nonneg len) h
  have hf : (len : Int) ≤ ⌊y⌋ := Int.le_floor.2 (by exact_mod_cast h)
  unfold JsNum.ofRat
  split
  · rename_i hd
    have hy : ((y.num : Int) : ℚ) = y := by
      have := Rat.num_div_den y
      rw [hd] at this
      simpa using this
    have hn : (len : Int) ≤ y.num := by
      have : ((len : Int) : ℚ) ≤ ((y.num : Int) : ℚ) := by rw [hy]; exact_mod_cast h
      exact_mod_cast this
    show (if y.num < 0 then ((len : Int) + y.num).toNat else min y.num.toNat len) = len
    rw [if_neg (by omega)]
    omega
  · show (if (if y < 0 then ⌈y⌉ else ⌊y⌋) < 0 then ((len : Int) + (if y < 0 then ⌈y⌉ else ⌊y⌋)).toNat
        else min (if y < 0 then ⌈y⌉ else ⌊y⌋).toNat len) = len
    rw [if_neg (not_lt.2 h0), if_neg (by omega)]
    omega

/-- The start index of the slice of `search` is the end of the array once the
page is past `2 ^ 53 / limit`, whatever the rounding of the offset. -/
theorem sliceIndex_far (len : Nat) (p l : Int) (hlen : len ≤ 100) (hl : 1 ≤ l)
    (hp : 401 ≤ p) :
    sliceIndex len (JsNum.mulRat (l : ℚ) (JsNum.subInt (.int p) 1)) = len := by
  have hx : (1 : ℚ) ≤ ((p - 1 : Int) : ℚ) := by
    have : (1 : Int) ≤ p - 1 := by omega
    exact_mod_cast this
  have hx400 : (400 : ℚ) ≤ ((p - 1 : Int) : ℚ) := by
    have : (400 : Int) ≤ p - 1 := by omega
    exact_mod_cast this
  have hlq : (1 : ℚ) ≤ (l : ℚ) := by exact_mod_cast hl
  have hlen2 : (len : ℚ) ≤ 100 := by exact_mod_cast hlen
  show sliceIndex len (JsNum.mulRat (l : ℚ) (roundDouble ((p - 1 : Int) : ℚ))) = len
  rcases roundDouble_ge_half _ hx with h | ⟨y, h, hy⟩
  · rw [h]
    show sliceIndex len (if (l : ℚ) = 0 then JsNum.nan
      else if 0 < (l : ℚ) then JsNum.posInf else JsNum.negInf) = len
    rw [if_neg (by linarith), if_pos (by linarith)]
    rfl
  · rw [h, mulRat_ofRat]
    have hy200 : (200 : ℚ) ≤ y := by linarith
    have hprod : (1 : ℚ) ≤ (l : ℚ) * y := by nlinarith
    have hprod2 : (200 : ℚ) ≤ (l : ℚ) * y := by nlinarith
    rcases roundDouble_ge_half _ hprod with h2 | ⟨y2, h2, hy2⟩
    · rw [h2]
      rfl
    · rw [h2]
      exact sliceIndex_ofRat_large len y2 (by linarith)

/-- The offset of `search` below `2 ^ 53` is the exact product. -/
theorem offset_exact (p l : Int) (hp : 1 ≤ p) (hl : 1 ≤ l)
    (h : (p - 1) * l ≤ 2 ^ 53) :
    JsNum.mulRat (l : ℚ) (JsNum.subInt (.int p) 1) = .int ((p - 1) * l) := by
  have h1 : p - 1 ≤ (p - 1) * l := le_mul_of_one_le_right (by omega) hl
  rw [subInt_int p 1 (by rw [abs_of_nonneg (by omega)]; omega),
    mulRat_int l (p - 1) (by
      rw [abs_of_nonneg (mul_nonneg (by omega) (by omega)), mul_comm]
      exact h), mul_comm]

/-- The slice `results.slice(offset, offset + limit)` of `search`, with the
offset and the sum rounded as the code computes them, is the exact page: the
array has at most 100 elements, and a rounded offset is far past its end. -/
theorem jsSlice_page {α : Type} (M : List α) (p l : Int) (hp : 1 ≤ p)
    (hl : 1 ≤ l ∧ l ≤ 50) (hM : M.length ≤ 100) :
    jsSlice M (JsNum.mulRat (l : ℚ) (JsNum.subInt (.int p) 1))
        (JsNum.addInt (JsNum.mulRat (l : ℚ) (JsNum.subInt (.int p) 1)) l)
      = (M.drop ((p - 1) * l).toNat).take l.toNat := by
  by_cases hsmall : p ≤ 401
  · have hprod : (p - 1) * l ≤ 400 * 50 :=
      mul_le_mul (by omega) hl.2 (by omega) (by norm_num)
    have h0 : 0 ≤ (p - 1) * l := mul_nonneg (by omega) (by omega)
    rw [offset_exact p l hp hl.1 (by norm_num at hprod ⊢; omega),
      addInt_int _ _ (by rw [abs_of_nonneg (by omega)]; norm_num at hprod ⊢; omega)]
    unfold jsSlice
    simp only [sliceIndex]
    rw [if_neg (by omega), if_neg (by omega)]
    obtain ⟨o, ho⟩ : ∃ o : Nat, (p - 1) * l = o := ⟨((p - 1) * l).toNat, by omega⟩
    obtain ⟨n, hn⟩ : ∃ n : Nat, l = n := ⟨l.toNat, by omega⟩
    rw [ho, hn]
    have e1 : ((o : Int) + (n : Int)).toNat = o + n := by omega
    simp only [Int.toNat_ofNat, e1]
    by_cases hlen : o ≤ M.length
    · rw [min_eq_left hlen]
      have : min (o + n) M.length - o = min n (M.length - o) := by omega
      rw [this, ← List.length_drop, take_min_length]
    · have h2 : M.length ≤ o := by omega
      rw [min_eq_right h2, List.drop_of_length_le h2, List.drop_of_length_le (le_refl _)]
      simp
  · have hfar := sliceIndex_far M.length p l hM hl.1 (by omega)
    unfold jsSlice
    rw [hfar, List.drop_of_length_le (le_refl _), List.take_nil]
    have h1 : p - 1 ≤ (p - 1) * l := le_mul_of_one_le_right (by omega) hl.1
    rw [List.drop_of_length_le (by omega), List.take_nil]

/-! ## Roundings above `2 ^ 53` -/

/-- The double nearest to a positive number, from the power of two below it and
the rounding of its quotient by the spacing. -/
theorem nearestDouble_eval (x : ℚ) (k m : ℤ) (hx : 0 < x) (h1 : (2 : ℚ) ^ k ≤ x)
    (h2 : x < 2 ^ (k + 1)) (hk : -1022 ≤ k) (hm : roundHalfEven (x / 2 ^ (k - 52)) = m) :
    nearestDouble x = m * 2 ^ (k - 52) := by
  have hlog : Int.log 2 |x| = k := by
    rw [abs_of_pos hx]
    exact log_of_bounds x k hx h1 h2
  have hu : ulpExponent x = k - 52 := by
    rw [ulpExponent, hlog]
    exact max_eq_left (by omega)
  rw [nearestDouble, hu, hm]

/-- `2 ^ 53 + 1` lies halfway between two doubles and rounds to the even one,
`2 ^ 53`. -/
theorem roundDouble_tie_down :
    roundDouble ((9007199254740993 : Int) : ℚ) = .int 9007199254740992 := by
  have hm : roundHalfEven ((9007199254740993 : ℚ) / 2 ^ ((53 : ℤ) - 52)) = 4503599627370496 := by
    have hy : (9007199254740993 : ℚ) / 2 ^ ((53 : ℤ) - 52) = 9007199254740993 / 2 := by
      norm_num
    have hfloor : ⌊(9007199254740993 / 2 : ℚ)⌋ = 4503599627370496 := by
      rw [Int.floor_eq_iff]
      constructor <;> norm_num
    rw [hy]
    unfold roundHalfEven
    rw [hfloor]
    norm_num
  have hn : nearestDouble ((9007199254740993 : Int) : ℚ) = ((9007199254740992 : Int) : ℚ) := by
    have := nearestDouble_eval 9007199254740993 53 4503599627370496 (by norm_num) (by norm_num)
      (by norm_num) (by norm_num) hm
    push_cast
    rw [this]
    norm_num
  unfold roundDouble
  rw [hn, if_neg, ofRat_int]
  rw [not_le]
  norm_num

/-- `2 ^ 53 + 3` lies halfway between two doubles and rounds to the even one,
`2 ^ 53 + 4`. -/
theorem roundDouble_tie_up :
    roundDouble ((9007199254740995 : Int) : ℚ) = .int 9007199254740996 := by
  have hm : roundHalfEven ((9007199254740995 : ℚ) / 2 ^ ((53 : ℤ) - 52)) = 4503599627370498 := by
    have hy : (9007199254740995 : ℚ) / 2 ^ ((53 : ℤ) - 52) = 9007199254740995 / 2 := by
      norm_num
    have hfloor : ⌊(9007199254740995 / 2 : ℚ)⌋ = 4503599627370497 := by
      rw [Int.floor_eq_iff]
      constructor <;> norm_num
    rw [hy]
    unfold roundHalfEven
    rw [hfloor]
    norm_num
  have hn : nearestDouble ((9007199254740995 : Int) : ℚ) = ((9007199254740996 : Int) : ℚ) := by
    have := nearestDouble_eval 9007199254740995 53 4503599627370498 (by norm_num) (by norm_num)
      (by norm_num) (by norm_num) hm
    push_cast
    rw [this]
    norm_num
  unfold roundDouble
  rw [hn, if_neg, ofRat_int]
  rw [not_le]
  norm_num

/-- The product `50 * (2 ^ 53 - 2)` is not a double: it rounds down to a multiple
of 64. -/
theorem roundDouble_offset :
    roundDouble ((50 : Int) * ((9007199254740990 : Int) : ℚ)) = .int 450359962737049472 := by
  have hx : ((50 : Int) : ℚ) * ((9007199254740990 : Int) : ℚ) = 450359962737049500 := by
    norm_num
  have hm : roundHalfEven ((450359962737049500 : ℚ) / 2 ^ ((58 : ℤ) - 52))
      = 7036874417766398 := by
    have hy : (450359962737049500 : ℚ) / 2 ^ ((58 : ℤ) - 52) = 450359962737049500 / 64 := by
      norm_num
    have hfloor : ⌊(450359962737049500 / 64 : ℚ)⌋ = 7036874417766398 := by
      rw [Int.floor_eq_iff]
      constructor <;> norm_num
    rw [hy]
    unfold roundHalfEven
    rw [hfloor]
    norm_num
  have hn : nearestDouble (450359962737049500 : ℚ) = ((450359962737049472 : Int) : ℚ) := by
    have := nearestDouble_eval 450359962737049500 58 7036874417766398 (by norm_num)
      (by norm_num) (by norm_num) (by norm_num) hm
    rw [this]
    norm_num
  rw [hx]
  unfold roundDouble
  rw [hn, if_neg, ofRat_int]
  rw [not_le]
  norm_num

/-- The product of the largest double below 1 and `2 ^ 53 + 2` rounds to
`2 ^ 53`. -/
theorem far_product :
    nearestDouble ((9007199254740991 / 9007199254740992 : ℚ) * ((9007199254740994 : Int) : ℚ))
      = 9007199254740992 := by
  have hx : (9007199254740991 / 9007199254740992 : ℚ) * ((9007199254740994 : Int) : ℚ)
      = 40564819207303345351494129942527 / 4503599627370496 := by norm_num
  have hm : roundHalfEven ((40564819207303345351494129942527 / 4503599627370496 : ℚ)
      / 2 ^ ((53 : ℤ) - 52)) = 4503599627370496 := by
    have hy : (40564819207303345351494129942527 / 4503599627370496 : ℚ) / 2 ^ ((53 : ℤ) - 52)
        = 40564819207303345351494129942527 / 9007199254740992 := by
      norm_num
    have hfloor : ⌊(40564819207303345351494129942527 / 9007199254740992 : ℚ)⌋
        = 4503599627370496 := by
      rw [Int.floor_eq_iff]
      constructor <;> norm_num
    rw [hy]
    unfold roundHalfEven
    rw [hfloor]
    norm_num
  rw [hx, nearestDouble_eval _ 53 4503599627370496 (by norm_num) (by norm_num)
    (by norm_num) (by norm_num) hm]
  norm_num

theorem far_exact_product :
    ⌊(9007199254740991 / 9007199254740992 : ℚ) * ((9007199254740994 : Int) : ℚ)⌋
      = 9007199254740992 := by
  rw [Int.floor_eq_iff]
  constructor <;> norm_num

/-! ## Lemmas on `search` -/

theorem query_check (query : String) :
    (decide (query = "") || decide (jsLength query < 1) || decide (jsLength query > 100))
      = !isQuery query := by
  by_cases h : query = ""
  · subst h
    rfl
  · unfold isQuery
    by_cases h1 : jsLength query < 1 <;> by_cases h2 : jsLength query > 100 <;>
      simp [h, h1, h2]
    all_goals omega

theorem limit_check_of_valid (env : Env) (limit : JsVal) (h : isLimit limit = true) :
    (!numberIsInteger limit || JsNum.lt (toNumber env limit) (.int 1)
      || JsNum.lt (.int 50) (toNumber env limit)) = false := by
  cases limit with
  | num n =>
    cases n with
    | int z =>
      simp only [isLimit, Bool.and_eq_true, decide_eq_true_eq] at h
      simp [numberIsInteger, toNumber, JsNum.lt]
      omega
    | _ => simp [isLimit] at h
  | _ => simp [isLimit] at h

theorem limit_check_of_invalid (env : Env) (limit : JsVal) (h : isLimit limit = false) :
    (!numberIsInteger limit || JsNum.lt (toNumber env limit) (.int 1)
      || JsNum.lt (.int 50) (toNumber env limit)) = true := by
  cases limit with
  | num n =>
    cases n with
    | int z =>
      simp only [isLimit, Bool.and_eq_false_iff, decide_eq_false_iff_not] at h
      simp [numberIsInteger, toNumber, JsNum.lt]
      omega
    | _ => simp [numberIsInteger]
  | _ => simp [numberIsInteger]

theorem not_undefined_of_limit (v : JsVal) (h : isLimit v = true) : v ≠ .undefined := by
  rintro rfl
  simp [isLimit] at h

/-- What `search` does once its three checks have passed. -/
theorem search_of_valid (env : Env) (fuel : Nat) (query : String) (page limit : JsVal)
    (w : World) (hq : isQuery query = true) (hp : isPositiveInteger page = true)
    (hl : isLimit limit = true) :
    search env fuel query page limit w =
      match getLatest env w with
      | (.error err, w) => some (.error (mkError ("Search failed: " ++ err.message)), w)
      | (.ok latest, w) =>
        match searchLoop env query
            (JsNum.max (.int 1) (JsNum.subInt (toNumber env latest.id) 99)) fuel latest.id [] w with
        | none => none
        | some (results, w) =>
          some (.ok
            { query := query
              results := jsSlice results
                (JsNum.mulRat (intValue limit) (JsNum.subInt (toNumber env page) 1))
                (JsNum.addInt
                  (JsNum.mulRat (intValue limit) (JsNum.subInt (toNumber env page) 1))
                  (intValue limit))
              total := results.length
              pagination :=
                { page := intValue page, limit := intValue limit,
                  offset :=
                    JsNum.mulRat (intValue limit) (JsNum.subInt (toNumber env page) 1) } },
            w) := by
  obtain ⟨z, rfl, hz⟩ := (isPositiveInteger_iff page).1 hp
  have h1 := query_check query
  rw [hq] at h1
  have h2 := valid_id_check env z hz
  have h3 := limit_check_of_valid env limit hl
  have h4 := not_undefined_of_limit limit hl
  have h5 : (JsVal.num (.int z) = JsVal.undefined) = False := by simp
  unfold search
  simp only [h4, h5, if_false, h1, h2, h3, Bool.not_true, Bool.false_eq_true]

theorem includesChars_iff (t q : List Char) : includesChars t q = true ↔ q <:+: t := by
  induction t with
  | nil => simp [includesChars, List.isEmpty_iff]
  | cons c t ih =>
    rw [includesChars, Bool.or_eq_true, List.isPrefixOf_iff_prefix, ih, List.infix_cons_iff]

theorem pushIfMatch_eq (env : Env) (query : String) (results : List Comic) (comic : Comic) :
    pushIfMatch env query results comic
      = results ++ matchesOf env query [.ok comic] := by
  unfold pushIfMatch matchesOf comicMatches includes
  by_cases h : (toLowerCase env query).data <:+:
      (toLowerCase env (toStr env comic.title ++ " " ++ toStr env comic.transcript)).data
  · simp [h, (includesChars_iff _ _).2 h]
  · have h2 : includesChars
        (toLowerCase env (toStr env comic.title ++ " " ++ toStr env comic.transcript)).data
        (toLowerCase env query).data = false := by
      rw [← Bool.not_eq_true, includesChars_iff]
      exact h
    simp [h, h2]

theorem matchesOf_cons (env : Env) (query : String) (r : Except JsError Comic)
    (rs : List (Except JsError Comic)) :
    matchesOf env query (r :: rs) = matchesOf env query [r] ++ matchesOf env query rs := by
  unfold matchesOf
  rw [← List.filterMap_append]
  rfl

theorem matchesOf_error (env : Env) (query : String) (e : JsError) :
    matchesOf env query [.error e] = [] := rfl

theorem windowIds_eq (N : Int) : windowIds N = descending N (min N 100).toNat := rfl

theorem descending_zero (i : Int) : descending i 0 = [] := rfl

theorem descending_succ (i : Int) (n : Nat) :
    descending i (n + 1) = JsVal.num (.int i) :: descending (i - 1) n := by
  unfold descending
  rw [List.range_succ_eq_map, List.map_cons, List.map_map]
  congr 1
  · simp
  · apply List.map_congr_left
    intro k _
    simp only [Function.comp, Nat.cast_succ]
    congr 2
    ring

theorem mem_descending (x : JsVal) (i : Int) (n : Nat) :
    x ∈ descending i n ↔ ∃ k : Nat, k < n ∧ x = .num (.int (i - (k : Int))) := by
  unfold descending
  simp only [List.mem_map, List.mem_range]
  constructor
  · rintro ⟨k, hk, e⟩
    exact ⟨k, hk, e.symm⟩
  · rintro ⟨k, hk, e⟩
    exact ⟨k, hk, e.symm⟩

theorem fetchById_byIdCalls (env : Env) (id : JsVal) (key : String) (w : World) :
    (fetchById env id key w).2.byIdCalls = w.byIdCalls := by
  unfold fetchById
  simp only
  split <;> rfl

theorem getById_byIdCalls (env : Env) (id : JsVal) (w : World) :
    (getById env id w).2.byIdCalls = w.byIdCalls ++ [id] := by
  unfold getById
  simp only
  split
  · rfl
  · split
    · split
      · rfl
      · rw [fetchById_byIdCalls]
    · rw [fetchById_byIdCalls]

theorem fetchLatest_byIdCalls (env : Env) (w : World) :
    (fetchLatest env w).2.byIdCalls = w.byIdCalls := by
  unfold fetchLatest
  simp only
  split <;> rfl

theorem getLatest_byIdCalls (env : Env) (w : World) :
    (getLatest env w).2.byIdCalls = w.byIdCalls := by
  unfold getLatest
  simp only
  split
  · split
    · rfl
    · rw [fetchLatest_byIdCalls]
  · rw [fetchLatest_byIdCalls]

theorem windowOutcomes_byIdCalls (env : Env) (ids : List JsVal) (w : World) :
    (windowOutcomes env ids w).2.byIdCalls = w.byIdCalls ++ ids := by
  induction ids generalizing w with
  | nil => simp [windowOutcomes]
  | cons id ids ih =>
    simp only [windowOutcomes]
    rw [ih, getById_byIdCalls]
    simp

theorem ge_int (i s : Int) : JsNum.ge (.int i) (.int s) = decide (s ≤ i) := by
  by_cases h : s ≤ i
  · simp [JsNum.ge, JsNum.lt, h]
  · simp [JsNum.ge, JsNum.lt, h]
    omega

theorem windowOutcomes_length (env : Env) (ids : List JsVal) (w : World) :
    (windowOutcomes env ids w).1.length = ids.length := by
  induction ids generalizing w with
  | nil => rfl
  | cons id ids ih =>
    simp only [windowOutcomes, List.length_cons]
    rw [ih]

/-- The match sequence of a window has at most 100 elements. -/
theorem window_matches_le (env : Env) (query : String) (N : Int) (w : World) :
    (matchesOf env query (windowOutcomes env (windowIds N) w).1).length ≤ 100 := by
  have h1 : (matchesOf env query (windowOutcomes env (windowIds N) w).1).length
      ≤ (windowOutcomes env (windowIds N) w).1.length := by
    unfold matchesOf
    exact List.length_filterMap_le _ _
  have h2 : (windowIds N).length = (min N 100).toNat := by simp [windowIds]
  rw [windowOutcomes_length, h2] at h1
  omega

/-- The loop of `search` over integers up to `2 ^ 53`, where the decrement is
exact: with enough fuel, it is the walk of `windowOutcomes` down the ids, and it
appends the matches it meets. -/
theorem searchLoop_descending (env : Env) (query : String) (s : Int) (n : Nat) :
    ∀ (fuel : Nat) (i : Int) (acc : List Comic) (w : World), n ≤ fuel → s = i - n + 1 →
      1 ≤ s → i ≤ 9007199254740992 →
      searchLoop env query (.int s) fuel (.num (.int i)) acc w
        = some (acc ++ matchesOf env query (windowOutcomes env (descending i n) w).1,
                (windowOutcomes env (descending i n) w).2) := by
  induction n with
  | zero =>
    intro fuel i acc w _ hs _ _
    have hge : JsNum.ge (toNumber env (.num (.int i))) (.int s) = false := by
      rw [toNumber, ge_int]
      simp only [decide_eq_false_iff_not]
      omega
    cases fuel <;> simp [searchLoop, hge, descending_zero, windowOutcomes, matchesOf]
  | succ n ih =>
    intro fuel i acc w hf hs hs1 hi
    obtain ⟨f, rfl⟩ : ∃ f, fuel = f + 1 := ⟨fuel - 1, by omega⟩
    have hge : JsNum.ge (toNumber env (.num (.int i))) (.int s) = true := by
      rw [toNumber, ge_int]
      simp only [decide_eq_true_eq]
      push_cast at hs
      omega
    have hnext : JsVal.num (JsNum.subInt (toNumber env (.num (.int i))) 1)
        = .num (.int (i - 1)) := by
      rw [toNumber, subInt_int i 1 (by
        push_cast at hs
        rw [abs_of_nonneg (by omega), two_pow_53]
        omega)]
    have hs2 : s = (i - 1) - n + 1 := by push_cast at hs; omega
    rw [searchLoop, if_pos hge, hnext, descending_succ]
    simp only [windowOutcomes]
    rw [matchesOf_cons]
    cases hg : getById env (.num (.int i)) w with
    | mk r w1 =>
      cases r with
      | ok comic =>
        simp only
        rw [ih f (i - 1) _ w1 (by omega) hs2 hs1 (by omega), pushIfMatch_eq,
          List.append_assoc]
      | error e =>
        simp only
        rw [ih f (i - 1) _ w1 (by omega) hs2 hs1 (by omega), matchesOf_error,
          List.nil_append]

/-- The first id below the window, `max(1, N - 99)`, when `N - 99` is exact. -/
theorem start_of_int (env : Env) (N : Int) (h : |N - 99| ≤ 2 ^ 53) :
    JsNum.max (.int 1) (JsNum.subInt (toNumber env (.num (.int N))) 99)
      = .int (max 1 (N - 99)) := by
  rw [toNumber, subInt_int N 99 h]
  simp only [JsNum.max, JsNum.lt]
  by_cases h : 1 < N - 99
  · simp [h, max_eq_right (le_of_lt h)]
  · simp [h, max_eq_left (not_lt.1 h)]

/-- The loop of `search` for a latest id `N` between 1 and `2 ^ 53`: with a fuel
of 100 or more it ends, having walked the window. -/
theorem searchLoop_window (env : Env) (query : String) (fuel : Nat) (N : Int) (w : World)
    (hN : 1 ≤ N) (hN2 : N ≤ 2 ^ 53) (hfuel : 100 ≤ fuel) :
    searchLoop env query (JsNum.max (.int 1) (JsNum.subInt (toNumber env (.num (.int N))) 99))
        fuel (.num (.int N)) [] w
      = some (matchesOf env query (windowOutcomes env (windowIds N) w).1,
              (windowOutcomes env (windowIds N) w).2) := by
  rw [two_pow_53] at hN2
  rw [start_of_int env N (by rw [two_pow_53]; exact abs_le.2 ⟨by omega, by omega⟩),
    windowIds_eq,
    searchLoop_descending env query (max 1 (N - 99)) (min N 100).toNat fuel N [] w
      (by omega) (by omega) (by omega) hN2]
  simp

/-- The loop of `search` from the id `2 ^ 53 + 2`: the decrement gives `2 ^ 53`,
so the walk passes over `2 ^ 53 + 1` and ends one id short of the window. -/
theorem searchLoop_skip (env : Env) (query : String) (w : World) :
    ∃ results w2,
      searchLoop env query (.int 9007199254740895) 100 (.num (.int 9007199254740994)) [] w
        = some (results, w2) ∧
      w2.byIdCalls
        = w.byIdCalls ++ .num (.int 9007199254740994) :: descending 9007199254740992 98 := by
  have hge : JsNum.ge (toNumber env (.num (.int 9007199254740994))) (.int 9007199254740895)
      = true := by
    rw [toNumber, ge_int]
    decide
  have hnext : JsVal.num (JsNum.subInt (toNumber env (.num (.int 9007199254740994))) 1)
      = .num (.int 9007199254740992) := by
    rw [toNumber]
    show JsVal.num (roundDouble (((9007199254740994 - 1 : Int)) : ℚ)) = _
    rw [show (9007199254740994 - 1 : Int) = 9007199254740993 from rfl, roundDouble_tie_down]
  rw [searchLoop, if_pos hge, hnext]
  have hc := getById_byIdCalls env (.num (.int 9007199254740994)) w
  cases hg : getById env (.num (.int 9007199254740994)) w with
  | mk r w1 =>
    rw [hg] at hc
    simp only at hc
    cases r with
    | ok comic =>
      simp only
      rw [searchLoop_descending env query 9007199254740895 98 99 9007199254740992 _ w1
        (by decide) (by decide) (by decide) (by decide)]
      exact ⟨_, _, rfl, by rw [windowOutcomes_byIdCalls, hc, List.append_assoc]; rfl⟩
    | error e =>
      simp only
      rw [searchLoop_descending env query 9007199254740895 98 99 9007199254740992 _ w1
        (by decide) (by decide) (by decide) (by decide)]
      exact ⟨_, _, rfl, by rw [windowOutcomes_byIdCalls, hc, List.append_assoc]; rfl⟩

/-- The loop of `search` from the id `2 ^ 53 + 4`: the decrement gives back
`2 ^ 53 + 4`, so the condition of the loop holds after any number of iterations. -/
theorem searchLoop_stuck (env : Env) (query : String) :
    ∀ (fuel : Nat) (acc : List Comic) (w : World),
      searchLoop env query (.int 9007199254740897) fuel (.num (.int 9007199254740996)) acc w
        = none := by
  have hge : JsNum.ge (toNumber env (.num (.int 9007199254740996))) (.int 9007199254740897)
      = true := by
    rw [toNumber, ge_int]
    decide
  have hnext : JsVal.num (JsNum.subInt (toNumber env (.num (.int 9007199254740996))) 1)
      = .num (.int 9007199254740996) := by
    rw [toNumber]
    show JsVal.num (roundDouble (((9007199254740996 - 1 : Int)) : ℚ)) = _
    rw [show (9007199254740996 - 1 : Int) = 9007199254740995 from rfl, roundDouble_tie_up]
  intro fuel
  induction fuel with
  | zero =>
    intro acc w
    rw [searchLoop, if_pos hge]
  | succ f ih =>
    intro acc w
    rw [searchLoop, if_pos hge, hnext]
    cases hg : getById env (.num (.int 9007199254740996)) w with
    | mk r w1 =>
      cases r with
      | ok comic =>
        simp only
        exact ih _ w1
      | error e =>
        simp only
        exact ih _ w1

/-- The result of `search` for valid arguments and a latest id `N` between 1 and
`2 ^ 53`, in terms of the match sequence of the window. -/
theorem search_eq (env : Env) (fuel : Nat) (query : String) (p l N : Int)
    (w w1 : World) (latest : Comic)
    (hq : isQuery query = true) (hp : 1 ≤ p) (hl : 1 ≤ l ∧ l ≤ 50)
    (hlatest : getLatest env w = (.ok latest, w1)) (hid : latest.id = .num (.int N))
    (hN : 1 ≤ N) (hN2 : N ≤ 2 ^ 53) (hfuel : 100 ≤ fuel) :
    search env fuel query (.num (.int p)) (.num (.int l)) w
      = some (.ok
          { query := query
            results :=
              ((matchesOf env query (windowOutcomes env (windowIds N) w1).1).drop
                ((p - 1) * l).toNat).take l.toNat
            total := (matchesOf env query (windowOutcomes env (windowIds N) w1).1).length
            pagination :=
              { page := p, limit := l,
                offset := JsNum.mulRat (l : ℚ) (JsNum.subInt (.int p) 1) } },
          (windowOutcomes env (windowIds N) w1).2) := by
  have hp1 : isPositiveInteger (.num (.int p)) = true := by
    simp [isPositiveInteger]; omega
  have hl1 : isLimit (.num (.int l)) = true := by
    simp [isLimit]; omega
  rw [search_of_valid env fuel query _ _ w hq hp1 hl1, hlatest]
  simp only [hid]
  rw [searchLoop_window env query fuel N w1 hN hN2 hfuel,
    ← jsSlice_page (matchesOf env query (windowOutcomes env (windowIds N) w1).1) p l hp hl
      (window_matches_le env query N w1)]
  rfl

theorem pageResults_eq (env : Env) (fuel : Nat) (query : String) (p l N : Int)
    (w w1 : World) (latest : Comic)
    (hq : isQuery query = true) (hp : 1 ≤ p) (hl : 1 ≤ l ∧ l ≤ 50)
    (hlatest : getLatest env w = (.ok latest, w1)) (hid : latest.id = .num (.int N))
    (hN : 1 ≤ N) (hN2 : N ≤ 2 ^ 53) (hfuel : 100 ≤ fuel) :
    pageResults env fuel query (.num (.int p)) (.num (.int l)) w
      = ((matchesOf env query (windowOutcomes env (windowIds N) w1).1).drop
          ((p - 1) * l).toNat).take l.toNat := by
  unfold pageResults
  rw [search_eq env fuel query p l N w w1 latest hq hp hl hlatest hid hN hN2 hfuel]

/-- A search with the latest id `2 ^ 53 + 2` returns after 99 calls of
`getById`: on the latest id, then on `2 ^ 53` and the 97 ids below it. -/
theorem search_skip (env : Env) (query : String) (p l : Int)
    (w w1 : World) (latest : Comic)
    (hq : isQuery query = true) (hp : 1 ≤ p) (hl : 1 ≤ l ∧ l ≤ 50)
    (hlatest : getLatest env w = (.ok latest, w1))
    (hid : latest.id = .num (.int 9007199254740994)) :
    ∃ result w2,
      search env 100 query (.num (.int p)) (.num (.int l)) w = some (.ok result, w2) ∧
      w2.byIdCalls
        = w.byIdCalls ++ .num (.int 9007199254740994) :: descending 9007199254740992 98 := by
  have hp1 : isPositiveInteger (.num (.int p)) = true := by
    simp [isPositiveInteger]; omega
  have hl1 : isLimit (.num (.int l)) = true := by
    simp [isLimit]; omega
  have hcalls1 : w1.byIdCalls = w.byIdCalls := by
    have := getLatest_byIdCalls env w
    rw [hlatest] at this
    exact this
  obtain ⟨results, w2, hloop, hcalls⟩ := searchLoop_skip env query w1
  rw [search_of_valid env 100 query _ _ w hq hp1 hl1, hlatest]
  simp only [hid]
  rw [start_of_int env 9007199254740994 (by decide),
    show max (1 : Int) (9007199254740994 - 99) = 9007199254740895 from by decide, hloop]
  exact ⟨_, w2, rfl, by rw [hcalls, hcalls1]⟩

/-- A search never returns when the latest id is `2 ^ 53 + 4`, whatever the
number of iterations it is given. -/
theorem search_stuck (env : Env) (fuel : Nat) (query : String) (p l : Int)
    (w w1 : World) (latest : Comic)
    (hq : isQuery query = true) (hp : 1 ≤ p) (hl : 1 ≤ l ∧ l ≤ 50)
    (hlatest : getLatest env w = (.ok latest, w1))
    (hid : latest.id = .num (.int 9007199254740996)) :
    search env fuel query (.num (.int p)) (.num (.int l)) w = none := by
  have hp1 : isPositiveInteger (.num (.int p)) = true := by
    simp [isPositiveInteger]; omega
  have hl1 : isLimit (.num (.int l)) = true := by
    simp [isLimit]; omega
  rw [search_of_valid env fuel query _ _ w hq hp1 hl1, hlatest]
  simp only [hid]
  rw [start_of_int env 9007199254740996 (by decide),
    show max (1 : Int) (9007199254740996 - 99) = 9007199254740897 from by decide,
    searchLoop_stuck]

theorem matchesOf_filter_ok (env : Env) (query : String)
    (outcomes : List (Except JsError Comic)) :
    matchesOf env query (outcomes.filter (fun r => r.isOk)) = matchesOf env query outcomes := by
  unfold matchesOf
  rw [List.filterMap_filter]
  apply List.filterMap_congr
  intro r _
  cases r <;> simp [Except.isOk, Except.toBool]

theorem firstPages_eq (env : Env) (fuel : Nat) (query : String) (l N : Int)
    (w w1 : World) (latest : Comic)
    (hq : isQuery query = true) (hl : 1 ≤ l ∧ l ≤ 50)
    (hlatest : getLatest env w = (.ok latest, w1)) (hid : latest.id = .num (.int N))
    (hN : 1 ≤ N) (hN2 : N ≤ 2 ^ 53) (hfuel : 100 ≤ fuel) (k : Nat) :
    firstPages env fuel query (.num (.int l)) w k
      = (matchesOf env query (windowOutcomes env (windowIds N) w1).1).take (k * l.toNat) := by
  induction k with
  | zero => simp [firstPages]
  | succ k ih =>
    have hoff : (((k : Int) + 1 - 1) * l).toNat = k * l.toNat := by
      obtain ⟨L, rfl⟩ : ∃ L : Nat, l = L := ⟨l.toNat, by omega⟩
      have : ((k : Int) + 1 - 1) * (L : Int) = ((k * L : Nat) : Int) := by push_cast; ring
      rw [this, Int.toNat_ofNat, Int.toNat_ofNat]
    rw [firstPages, ih,
      pageResults_eq env fuel query _ l N w w1 latest hq (by omega) hl hlatest hid hN hN2
        hfuel,
      hoff, Nat.succ_mul, List.take_add]

/-! ## Lemmas on unchecked bodies and on the random route -/

theorem fetchById_of_ok (env : Env) (id : JsVal) (key : String) (w : World) (c : Comic)
    (h : byIdBody (env.fetch w.requests.length (comicUrl env id)) = .ok c) :
    fetchById env id key w
      = (.ok c,
          { w with
            requests := w.requests ++ [comicUrl env id]
            clock := w.clock + 1
            cache := w.cache.set key { data := c, timestamp := env.now w.clock } }) := by
  have hu : baseUrl ++ "/" ++ toStr env id ++ "/info.0.json" = comicUrl env id := rfl
  unfold fetchById
  simp only [hu, h]

theorem fetchLatest_of_ok (env : Env) (w : World) (c : Comic)
    (h : latestBody (env.fetch w.requests.length latestUrl) = .ok c) :
    fetchLatest env w
      = (.ok c,
          { w with
            requests := w.requests ++ [latestUrl]
            clock := w.clock + 1
            cache := w.cache.set "latest" { data := c, timestamp := env.now w.clock } }) := by
  have hu : baseUrl ++ "/info.0.json" = latestUrl := rfl
  unfold fetchLatest
  simp only [hu, h]

theorem fetchLatest_of_error (env : Env) (w : World) (e : JsError)
    (h : latestBody (env.fetch w.requests.length latestUrl) = .error e) :
    fetchLatest env w
      = (.error (mkError ("Failed to fetch latest comic: " ++ e.message)),
          { w with requests := w.requests ++ [latestUrl] }) := by
  have hu : baseUrl ++ "/info.0.json" = latestUrl := rfl
  unfold fetchLatest
  simp only [hu, h]

/-- The state in which `getLatest` sends its request, when the cache has no
fresh entry under `latest`; the cache and the requests are those of `w`. -/
theorem getLatest_no_fresh_entry (env : Env) (w : World)
    (hc : ∀ entry, w.cache.get "latest" = some entry →
      isFresh (env.now w.clock) entry = false) :
    ∃ w0, getLatest env w = fetchLatest env w0 ∧
      w0.cache = w.cache ∧ w0.requests = w.requests := by
  cases hg : w.cache.get "latest" with
  | none => exact ⟨_, getLatest_of_miss env w hg, rfl, rfl⟩
  | some entry =>
    exact ⟨_, getLatest_of_stale env w entry hg ((isFresh_false_iff _ _).1 (hc entry hg)),
      rfl, rfl⟩

theorem mulRat_zero (z : Int) : JsNum.mulRat 0 (.int z) = .int 0 := by
  show roundDouble (0 * (z : ℚ)) = .int 0
  rw [zero_mul]
  unfold roundDouble
  rw [nearestDouble_zero, abs_zero, if_neg (not_le.2 (by positivity))]
  unfold JsNum.ofRat
  simp

theorem getRandom_of_latest_error (env : Env) (w w1 : World) (e : JsError)
    (h : getLatest env w = (.error e, w1)) :
    getRandom env w
      = (.error (mkError ("Failed to fetch random comic: " ++ e.message)), w1) := by
  unfold getRandom
  rw [h]

/-- Every rejection of `getRandom` is a new error whose message starts with
`Failed to fetch random comic: `. -/
theorem getRandom_error_form (env : Env) (w w1 : World) (e : JsError)
    (h : getRandom env w = (.error e, w1)) :
    ∃ m, e = mkError ("Failed to fetch random comic: " ++ m) := by
  unfold getRandom at h
  split at h
  · injection h with h1 _
    injection h1 with h1
    exact ⟨_, h1.symm⟩
  · simp only at h
    split at h
    · injection h with h1 _
      cases h1
    · injection h with h1 _
      injection h1 with h1
      exact ⟨_, h1.symm⟩

/-- The one call of `getById` that `getRandom` makes once `getLatest` has
returned, when the id it computes is the integer `z`. -/
theorem getRandom_byIdCalls (env : Env) (w w1 : World) (latest : Comic) (z : Int)
    (hlatest : getLatest env w = (.ok latest, w1))
    (hid : JsNum.addInt (JsNum.floor (JsNum.mulRat (env.random w1.draws)
      (toNumber env latest.id))) 1 = .int z) :
    (getRandom env w).2.byIdCalls = w.byIdCalls ++ [.num (.int z)] := by
  have hcalls : w1.byIdCalls = w.byIdCalls := by
    have := getLatest_byIdCalls env w
    rw [hlatest] at this
    exact this
  unfold getRandom
  rw [hlatest]
  simp only [hid]
  cases hg : getById env (.num (.int z)) { w1 with draws := w1.draws + 1 } with
  | mk r w2 =>
    have hc := getById_byIdCalls env (.num (.int z)) { w1 with draws := w1.draws + 1 }
    rw [hg] at hc
    simp only at hc
    rw [hcalls] at hc
    cases r <;> exact hc

/-- The id `getRandom` computes in the setting of the unit test: the rounded
product is 1499, and the id 1500. -/
theorem mocked_id :
    JsNum.addInt (JsNum.floor (JsNum.mulRat (mockedEnv.random mockedWorld.draws)
      (toNumber mockedEnv mockedLatest.id))) 1 = .int 1500 := by
  have e : mockedEnv.random mockedWorld.draws = 2454871215064863 / 4503599627370496 := rfl
  have hround : roundDouble (mockedEnv.random mockedWorld.draws * ((2750 : Int) : ℚ))
      = .int 1499 := by
    unfold roundDouble
    rw [e, mocked_product, if_neg (by rw [not_le]; norm_num),
      show (1499 : ℚ) = ((1499 : Int) : ℚ) from by norm_num, ofRat_int]
  show JsNum.addInt (JsNum.floor (roundDouble
    (mockedEnv.random mockedWorld.draws * ((2750 : Int) : ℚ)))) 1 = _
  rw [hround]
  exact addInt_int 1499 1 (by decide)

/-- The id `getRandom` computes upstream `farEnv`: the rounded product is
`2 ^ 53`, and so is the rounded sum. -/
theorem far_id :
    JsNum.addInt (JsNum.floor (JsNum.mulRat (farEnv.random farWorld.draws)
      (toNumber farEnv farLatest.id))) 1 = .int 9007199254740992 := by
  have e : farEnv.random farWorld.draws = 9007199254740991 / 9007199254740992 := rfl
  have hround : roundDouble (farEnv.random farWorld.draws * ((9007199254740994 : Int) : ℚ))
      = .int 9007199254740992 := by
    unfold roundDouble
    rw [e, far_product, if_neg (by rw [not_le]; norm_num),
      show (9007199254740992 : ℚ) = ((9007199254740992 : Int) : ℚ) from by norm_num,
      ofRat_int]
  show JsNum.addInt (JsNum.floor (roundDouble
    (farEnv.random farWorld.draws * ((9007199254740994 : Int) : ℚ)))) 1 = _
  rw [hround]
  show roundDouble (((9007199254740992 + 1 : Int)) : ℚ) = _
  rw [show (9007199254740992 + 1 : Int) = 9007199254740993 from rfl, roundDouble_tie_down]

/-- The rejection of `getRandom` on a service that has just started, upstream
`gapEnv`: the random id is 1, and comic 1 is not found. -/
theorem gap_getRandom :
    getRandom gapEnv emptyWorld
      = (.error (mkError "Failed to fetch random comic: Comic not found"), gapWorld) := by
  have hl : getLatest gapEnv emptyWorld = (.ok gapLatest, gapLatestWorld) := rfl
  have hid : JsNum.addInt (JsNum.floor (JsNum.mulRat (gapEnv.random gapLatestWorld.draws)
      (toNumber gapEnv gapLatest.id))) 1 = .int 1 := by
    show JsNum.addInt (JsNum.floor (JsNum.mulRat 0 (.int 3))) 1 = _
    rw [mulRat_zero]
    exact addInt_int 0 1 (by decide)
  unfold getRandom
  rw [hl]
  simp only [hid]
  rfl

theorem random_prefix_ne_empty (m : String) : "Failed to fetch random comic: " ++ m ≠ "" := by
  intro h
  have h2 := congrArg String.data h
  rw [String.data_append] at h2
  have h3 := congrArg List.head? h2
  simp at h3

/-- The status the middleware answers to a rejection of `getRandom`. -/
theorem errorHandler_random (env : Env) (m : String) :
    (errorHandler env (mkError ("Failed to fetch random comic: " ++ m))).status =
      (if includes (toLowerCase env ("Failed to fetch random comic: " ++ m)) "comic not found"
        then 404
      else if includes (toLowerCase env ("Failed to fetch random comic: " ++ m))
          "invalid comic id" then 400
      else 500) := by
  have hname : ¬ (mkError ("Failed to fetch random comic: " ++ m)).name = "ValidationError" := by
    show ¬ "Error" = "ValidationError"
    decide
  have hmsg := random_prefix_ne_empty m
  unfold errorHandler
  rw [if_neg hname]
  simp only [mkError, ne_eq, hmsg, not_false_eq_true, decide_True, Bool.true_and]
  split
  · rfl
  · split
    · rfl
    · rfl

/-! ## The claims -/

/-- C1. `getById(id)` fails with the error `Invalid comic ID` if and only if
`id` is not a positive integer; when it does, the outcome is exactly that error
and the call has looked up no cache key, sent no request, read no clock and left
the cache as it was. -/
theorem getById_invalid_iff (env : Env) (id : JsVal) (w : World) :
    ((∃ e, (getById env id w).1 = .error e ∧ e.message = "Invalid comic ID")
        ↔ isPositiveInteger id = false) ∧
    (isPositiveInteger id = false →
      (getById env id w).1 = .error (mkError "Invalid comic ID") ∧
      (getById env id w).2.cache = w.cache ∧
      (getById env id w).2.cacheReads = w.cacheReads ∧
      (getById env id w).2.requests = w.requests ∧
      (getById env id w).2.clock = w.clock) ∧
    ((∀ z : Int, isPositiveInteger (.num (.int z)) = decide (1 ≤ z)) ∧
      (∀ q h, isPositiveInteger (.num (.nonInt q h)) = false) ∧
      isPositiveInteger (.num .nan) = false ∧
      isPositiveInteger (.num .posInf) = false ∧
      isPositiveInteger (.num .negInf) = false ∧
      (∀ s, isPositiveInteger (.str s) = false) ∧
      (∀ b, isPositiveInteger (.bool b) = false) ∧
      isPositiveInteger .null = false ∧
      isPositiveInteger .undefined = false) := by
  have hex : (∀ z : Int, isPositiveInteger (.num (.int z)) = decide (1 ≤ z)) ∧
      (∀ q h, isPositiveInteger (.num (.nonInt q h)) = false) ∧
      isPositiveInteger (.num .nan) = false ∧
      isPositiveInteger (.num .posInf) = false ∧
      isPositiveInteger (.num .negInf) = false ∧
      (∀ s, isPositiveInteger (.str s) = false) ∧
      (∀ b, isPositiveInteger (.bool b) = false) ∧
      isPositiveInteger .null = false ∧
      isPositiveInteger .undefined = false := by
    refine ⟨fun z => ?_, fun _ _ => rfl, rfl, rfl, rfl, fun _ => rfl, fun _ => rfl, rfl, rfl⟩
    simp only [isPositiveInteger]
    by_cases hz : 0 < z
    · rw [decide_eq_true hz, decide_eq_true (show 1 ≤ z by omega)]
    · rw [decide_eq_false hz, decide_eq_false (show ¬ 1 ≤ z by omega)]
  by_cases hp : isPositiveInteger id = true
  · refine ⟨⟨?_, fun h => by simp [hp] at h⟩, fun h => by simp [hp] at h, hex⟩
    rintro ⟨e, he, hm⟩
    exfalso
    cases hc : w.cache.get (comicKey env id) with
    | none =>
      rw [getById_of_miss env id w hp hc] at he
      exact fetchById_message_ne_invalid _ _ _ _ _ he hm
    | some entry =>
      by_cases hf : env.now w.clock - entry.timestamp < cacheTimeout
      · rw [getById_of_hit env id w entry hp hc hf] at he
        cases he
      · rw [getById_of_stale env id w entry hp hc hf] at he
        exact fetchById_message_ne_invalid _ _ _ _ _ he hm
  · have hp2 : isPositiveInteger id = false := by simpa using hp
    have hval := getById_of_invalid env id w hp2
    refine ⟨⟨fun _ => hp2, fun _ => ⟨_, by rw [hval], rfl⟩⟩, fun _ => ?_, hex⟩
    rw [hval]
    exact ⟨rfl, rfl, rfl, rfl, rfl⟩

/-- C2. The cache is read through with a TTL of five minutes. For a positive
integer `id`: when the cache holds a fresh entry under `comic-{id}`, `getById`
returns its data, sends no request and leaves the cache as it was; when it holds
no entry or a stale one, `getById` sends exactly one request, to the URL of the
comic, and a record it returns is then stored under the key with the time the
clock showed at the storing. The same holds of `getLatest` with the key
`latest`. Consequently, when a call of `getById(id)` has fetched and returned a
record, having sent its one request, a later call that finds the entry in place
and the clock less than 300000 ms past the time the first call stored it
returns the same record and sends no request, so that the two calls send one
request; when it finds the clock 300000 ms past that time or more it sends a
request again. And when the first call was served from a fresh entry, a second
call that finds the entry still fresh returns the same record, the two calls
sending no request. -/
theorem read_through_cache (env : Env) (id : JsVal) (w : World)
    (hid : isPositiveInteger id = true) :
    (∀ entry, w.cache.get (comicKey env id) = some entry →
        isFresh (env.now w.clock) entry = true →
        (getById env id w).1 = .ok entry.data ∧
        (getById env id w).2.requests = w.requests ∧
        (getById env id w).2.cache = w.cache) ∧
    ((w.cache.get (comicKey env id) = none ∨
        ∃ entry, w.cache.get (comicKey env id) = some entry ∧
          isFresh (env.now w.clock) entry = false) →
        (getById env id w).2.requests = w.requests ++ [comicUrl env id]) ∧
    (∀ entry, w.cache.get "latest" = some entry →
        isFresh (env.now w.clock) entry = true →
        (getLatest env w).1 = .ok entry.data ∧
        (getLatest env w).2.requests = w.requests ∧
        (getLatest env w).2.cache = w.cache) ∧
    ((w.cache.get "latest" = none ∨
        ∃ entry, w.cache.get "latest" = some entry ∧
          isFresh (env.now w.clock) entry = false) →
        (getLatest env w).2.requests = w.requests ++ [latestUrl]) ∧
    (∀ c w1, getById env id w = (.ok c, w1) →
      (w.cache.get (comicKey env id) = none →
        w1.cache.get (comicKey env id)
          = some { data := c, timestamp := env.now w.clock } ∧
        w1.clock = w.clock + 1) ∧
      (∀ entry, w.cache.get (comicKey env id) = some entry →
        isFresh (env.now w.clock) entry = false →
        w1.cache.get (comicKey env id)
          = some { data := c, timestamp := env.now (w.clock + 1) } ∧
        w1.clock = w.clock + 2)) ∧
    (∀ c w1, getLatest env w = (.ok c, w1) →
      (w.cache.get "latest" = none →
        w1.cache.get "latest" = some { data := c, timestamp := env.now w.clock } ∧
        w1.clock = w.clock + 1) ∧
      (∀ entry, w.cache.get "latest" = some entry →
        isFresh (env.now w.clock) entry = false →
        w1.cache.get "latest" = some { data := c, timestamp := env.now (w.clock + 1) } ∧
        w1.clock = w.clock + 2)) ∧
    (∀ c w1, getById env id w = (.ok c, w1) →
      (w.cache.get (comicKey env id) = none ∨
        ∃ entry, w.cache.get (comicKey env id) = some entry ∧
          isFresh (env.now w.clock) entry = false) →
      w1.requests = w.requests ++ [comicUrl env id] ∧
      ∀ w2, w2.cache.get (comicKey env id) = w1.cache.get (comicKey env id) →
        (env.now w2.clock - env.now (w1.clock - 1) < 300000 →
          (getById env id w2).1 = .ok c ∧
          (getById env id w2).2.requests = w2.requests) ∧
        (¬ env.now w2.clock - env.now (w1.clock - 1) < 300000 →
          (getById env id w2).2.requests = w2.requests ++ [comicUrl env id])) ∧
    (∀ entry, w.cache.get (comicKey env id) = some entry →
      isFresh (env.now w.clock) entry = true →
      isFresh (env.now (w.clock + 1)) entry = true →
      (getById env id (getById env id w).2).1 = .ok entry.data ∧
      (getById env id (getById env id w).2).2.requests = w.requests) := by
  refine ⟨?_, ?_, ?_, ?_, ?_, ?_, ?_, ?_⟩
  · intro entry hc hf
    rw [getById_of_hit env id w entry hid hc ((isFresh_iff _ _).1 hf)]
    exact ⟨rfl, rfl, rfl⟩
  · rintro (hc | ⟨entry, hc, hf⟩)
    · rw [getById_of_miss env id w hid hc, fetchById_requests]
      rfl
    · rw [getById_of_stale env id w entry hid hc ((isFresh_false_iff _ _).1 hf),
        fetchById_requests]
      rfl
  · intro entry hc hf
    rw [getLatest_of_hit env w entry hc ((isFresh_iff _ _).1 hf)]
    exact ⟨rfl, rfl, rfl⟩
  · rintro (hc | ⟨entry, hc, hf⟩)
    · rw [getLatest_of_miss env w hc, fetchLatest_requests]
      rfl
    · rw [getLatest_of_stale env w entry hc ((isFresh_false_iff _ _).1 hf),
        fetchLatest_requests]
      rfl
  · intro c w1 h1
    constructor
    · intro hc
      rw [getById_of_miss env id w hid hc] at h1
      have hcache := fetchById_ok_cache _ _ _ _ _ _ h1
      have hclock := fetchById_ok_clock _ _ _ _ _ _ h1
      exact ⟨hcache, hclock⟩
    · intro entry hc hf
      rw [getById_of_stale env id w entry hid hc ((isFresh_false_iff _ _).1 hf)] at h1
      have hcache := fetchById_ok_cache _ _ _ _ _ _ h1
      have hclock := fetchById_ok_clock _ _ _ _ _ _ h1
      exact ⟨hcache, hclock⟩
  · intro c w1 h1
    constructor
    · intro hc
      rw [getLatest_of_miss env w hc] at h1
      have hcache := fetchLatest_ok_cache _ _ _ _ h1
      have hclock := fetchLatest_ok_clock _ _ _ _ h1
      exact ⟨hcache, hclock⟩
    · intro entry hc hf
      rw [getLatest_of_stale env w entry hc ((isFresh_false_iff _ _).1 hf)] at h1
      have hcache := fetchLatest_ok_cache _ _ _ _ h1
      have hclock := fetchLatest_ok_clock _ _ _ _ h1
      exact ⟨hcache, hclock⟩
  · intro c w1 h1 hnf
    -- the entry the first call stored, and the request it sent
    have hentry : w1.cache.get (comicKey env id)
          = some { data := c, timestamp := env.now (w1.clock - 1) } ∧
        w1.requests = w.requests ++ [comicUrl env id] := by
      rcases hnf with hc | ⟨entry, hc, hf⟩
      · rw [getById_of_miss env id w hid hc] at h1
        have hr := fetchById_requests env id (comicKey env id) (afterLookup env id w)
        rw [h1] at hr
        have hk := fetchById_ok_clock _ _ _ _ _ _ h1
        have hcl : w1.clock - 1 = w.clock := by
          rw [hk]
          rfl
        rw [hcl]
        have hcache := fetchById_ok_cache _ _ _ _ _ _ h1
        exact ⟨hcache, hr⟩
      · rw [getById_of_stale env id w entry hid hc ((isFresh_false_iff _ _).1 hf)] at h1
        have hr := fetchById_requests env id (comicKey env id)
          { afterLookup env id w with clock := w.clock + 1 }
        rw [h1] at hr
        have hk := fetchById_ok_clock _ _ _ _ _ _ h1
        have hcl : w1.clock - 1 = w.clock + 1 := by
          rw [hk]
          rfl
        rw [hcl]
        have hcache := fetchById_ok_cache _ _ _ _ _ _ h1
        exact ⟨hcache, hr⟩
    obtain ⟨hc1, hreq⟩ := hentry
    refine ⟨hreq, fun w2 hw2 => ⟨?_, ?_⟩⟩
    · intro hfresh
      rw [getById_of_hit env id w2 _ hid (hw2.trans hc1) hfresh]
      exact ⟨rfl, rfl⟩
    · intro hstale
      rw [getById_of_stale env id w2 _ hid (hw2.trans hc1) hstale, fetchById_requests]
      rfl
  · intro entry hc hf hf2
    rw [getById_of_hit env id w entry hid hc ((isFresh_iff _ _).1 hf)]
    have hc2 : ({ afterLookup env id w with clock := w.clock + 1 } : World).cache.get
        (comicKey env id) = some entry := hc
    rw [getById_of_hit env id _ entry hid hc2 ((isFresh_iff _ _).1 hf2)]
    exact ⟨rfl, rfl⟩

/-- A witness of C2: on a service whose clock shows 7000 ms, `getById(614)`
sends one request, returns the record and stores it with the timestamp 7000;
called again one second later it returns the same record from the cache and
sends nothing, the two calls having sent one request. `getLatest` stores its
record in the same way. -/
theorem read_through_cache_witness :
    isPositiveInteger (.num (.int 614)) = true ∧
    getById woodpeckerEnv (.num (.int 614)) lateWorld = (.ok woodpecker, lateWoodpeckerWorld) ∧
    lateWoodpeckerWorld.cache.get (comicKey woodpeckerEnv (.num (.int 614)))
      = some { data := woodpecker, timestamp := 7000 } ∧
    lateWoodpeckerWorld.requests
      = lateWorld.requests ++ [comicUrl woodpeckerEnv (.num (.int 614))] ∧
    (getById woodpeckerEnv (.num (.int 614)) lateWoodpeckerWorld).1 = .ok woodpecker ∧
    (getById woodpeckerEnv (.num (.int 614)) lateWoodpeckerWorld).2.requests
      = lateWoodpeckerWorld.requests ∧
    lateLatestWorld.cache.get "latest" = some { data := woodpecker, timestamp := 7000 } :=
  have h := read_through_cache woodpeckerEnv (.num (.int 614)) lateWorld (by decide)
  have h1 : getById woodpeckerEnv (.num (.int 614)) lateWorld
      = (.ok woodpecker, lateWoodpeckerWorld) := by
    rfl
  have h2 : getLatest woodpeckerEnv lateWorld = (.ok woodpecker, lateLatestWorld) := by
    rfl
  have h3 := h.2.2.2.2.2.2.1 woodpecker lateWoodpeckerWorld h1 (Or.inl (by rfl))
  have h4 := (h3.2 lateWoodpeckerWorld rfl).1 (by decide)
  ⟨by decide, h1, ((h.2.2.2.2.1 woodpecker lateWoodpeckerWorld h1).1 (by rfl)).1, h3.1, h4.1,
    h4.2, ((h.2.2.2.2.2.1 woodpecker lateLatestWorld h2).1 (by rfl)).1⟩

/-- C3, at the failing input. With nothing cached and an upstream that answers
`500 Server Error`, `getById(614)` rejects with a new error whose message carries
the prefix `Failed to fetch comic: ` twice; it is not the error raised at the
status check, whose message carries it once. -/
theorem getById_http_error_wrapped_twice :
    (getById serverErrorEnv (.num (.int 614)) emptyWorld).1
      = .error (mkError "Failed to fetch comic: Failed to fetch comic: HTTP 500: Server Error") ∧
    (getById serverErrorEnv (.num (.int 614)) emptyWorld).1
      ≠ .error (mkError "Failed to fetch comic: HTTP 500: Server Error") := by
  have h1 : (getById serverErrorEnv (.num (.int 614)) emptyWorld).1
      = .error (mkError "Failed to fetch comic: Failed to fetch comic: HTTP 500: Server Error") :=
    rfl
  refine ⟨h1, fun h => ?_⟩
  rw [h1] at h
  injection h with h
  exact absurd (congrArg JsError.message h) (by decide)

/-- C4. For a positive integer `id` with no fresh entry in the cache, when the
upstream answers with status 404, `getById` rejects with the error of message
`Comic not found`, with no prefix; the cache is as it was; and the middleware
answers that error with status 404. -/
theorem getById_not_found (env : Env) (id : JsVal) (w : World) (r : Response)
    (hid : isPositiveInteger id = true)
    (hc : ∀ entry, w.cache.get (comicKey env id) = some entry →
      isFresh (env.now w.clock) entry = false)
    (hr : env.fetch w.requests.length (comicUrl env id) = .resolved (some r))
    (hs : r.status = 404) :
    (getById env id w).1 = .error (mkError "Comic not found") ∧
    (mkError "Comic not found").message = "Comic not found" ∧
    (getById env id w).2.cache = w.cache ∧
    (errorHandler env (mkError "Comic not found")).status = 404 := by
  obtain ⟨w0, h0, hcache, hreq⟩ := getById_no_fresh_entry env id w hid hc
  have hb : byIdBody (env.fetch w0.requests.length (comicUrl env id))
      = .error (mkError "Comic not found") := by
    rw [hreq, hr]
    simp [byIdBody, hs]
  rw [h0, fetchById_of_error env id _ w0 _ hb]
  refine ⟨?_, rfl, hcache, rfl⟩
  simp [byIdCatch, mkError]

/-- A witness of C4: with nothing cached and an upstream that answers 404,
`getById(999999)` rejects with `Comic not found` and the middleware answers 404. -/
theorem getById_not_found_witness :
    (getById notFoundEnv (.num (.int 999999)) emptyWorld).1 = .error (mkError "Comic not found") ∧
    (mkError "Comic not found").message = "Comic not found" ∧
    (getById notFoundEnv (.num (.int 999999)) emptyWorld).2.cache = emptyWorld.cache ∧
    (errorHandler notFoundEnv (mkError "Comic not found")).status = 404 :=
  getById_not_found notFoundEnv (.num (.int 999999)) emptyWorld
    { ok := false, status := 404, statusText := "Not Found",
      json := .error (mkError "Unexpected end of JSON input") }
    (by decide) (by intro entry he; cases he) rfl rfl

/-- C5. For a string `query` and numbers `page` and `limit`, `search` checks
its arguments in order and fails at once, the state untouched (no cache lookup,
no request, no call of `getLatest` or `getById`): with the query error when the
length of the query is outside `[1, 100]`; otherwise with the page error when
`page` is not an integer at least 1; otherwise with the limit error when `limit`
is not an integer of `[1, 50]`. These errors carry no prefix, and none of the
three messages is raised when the three preconditions hold. -/
theorem search_validation (env : Env) (fuel : Nat) (query : String) (page limit : JsNum)
    (w : World) :
    (isQuery query = false →
      search env fuel query (.num page) (.num limit) w
        = some (.error (mkError "Query must be between 1 and 100 characters"), w)) ∧
    (isQuery query = true → isPositiveInteger (.num page) = false →
      search env fuel query (.num page) (.num limit) w
        = some (.error (mkError "Page must be a positive integer"), w)) ∧
    (isQuery query = true → isPositiveInteger (.num page) = true →
      isLimit (.num limit) = false →
      search env fuel query (.num page) (.num limit) w
        = some (.error (mkError "Limit must be between 1 and 50"), w)) ∧
    (isQuery query = true → isPositiveInteger (.num page) = true →
      isLimit (.num limit) = true →
      ∀ e w1, search env fuel query (.num page) (.num limit) w = some (.error e, w1) →
        e.message ≠ "Query must be between 1 and 100 characters" ∧
        e.message ≠ "Page must be a positive integer" ∧
        e.message ≠ "Limit must be between 1 and 50") := by
  have hu1 : (JsVal.num page = JsVal.undefined) = False := by simp
  have hu2 : (JsVal.num limit = JsVal.undefined) = False := by simp
  refine ⟨?_, ?_, ?_, ?_⟩
  · intro hq
    have h1 := query_check query
    rw [hq] at h1
    unfold search
    simp only [hu1, hu2, if_false, h1, Bool.not_false, if_true]
  · intro hq hp
    have h1 := query_check query
    rw [hq] at h1
    have h2 := invalid_id_check env (.num page) hp
    unfold search
    simp only [hu1, hu2, if_false, h1, h2, Bool.not_true, Bool.false_eq_true, if_true]
  · intro hq hp hl
    have h1 := query_check query
    rw [hq] at h1
    obtain ⟨z, hz1, hz⟩ := (isPositiveInteger_iff _).1 hp
    have h2 := valid_id_check env z hz
    rw [← hz1] at h2
    have h3 := limit_check_of_invalid env (.num limit) hl
    unfold search
    simp only [hu1, hu2, if_false, h1, h2, h3, Bool.not_true, Bool.false_eq_true, if_true]
  · intro hq hp hl e w1 h
    rw [search_of_valid env fuel query _ _ w hq hp hl] at h
    have key : ∀ m : String, e.message = "Search failed: " ++ m →
        e.message ≠ "Query must be between 1 and 100 characters" ∧
        e.message ≠ "Page must be a positive integer" ∧
        e.message ≠ "Limit must be between 1 and 50" := by
      intro m hm
      rw [hm]
      refine ⟨?_, ?_, ?_⟩ <;>
      · intro h0
        have h2 := congrArg String.data h0
        rw [String.data_append] at h2
        have h3 := congrArg List.head? h2
        simp at h3
    split at h
    · rename_i err w2 _
      simp only [Option.some.injEq, Prod.mk.injEq, Except.error.injEq] at h
      exact key err.message (by rw [← h.1]; rfl)
    · split at h
      · cases h
      · simp at h

/-- C6, a counterexample to the claim as worded. The loop counter of `search` is
a double. With the latest id `2 ^ 53 + 2` the first decrement gives `2 ^ 53`: the
search calls `getById` 99 times, not 100, and never on `2 ^ 53 + 1`, an id of
the window. With the latest id `2 ^ 53 + 4` the decrement gives back
`2 ^ 53 + 4`: the search does not end, whatever the number of iterations it is
given. -/
theorem search_window_breaks :
    (getLatest farEnv emptyWorld).1 = .ok farLatest ∧
    farLatest.id = .num (.int 9007199254740994) ∧
    (∃ result w2,
      search farEnv 100 "test" (.num (.int 1)) (.num (.int 10)) emptyWorld
        = some (.ok result, w2) ∧
      w2.byIdCalls = .num (.int 9007199254740994) :: descending 9007199254740992 98 ∧
      w2.byIdCalls.length = 99 ∧
      (windowIds 9007199254740994).length = 100 ∧
      JsVal.num (.int 9007199254740993) ∈ windowIds 9007199254740994 ∧
      JsVal.num (.int 9007199254740993) ∉ w2.byIdCalls) ∧
    (getLatest stuckEnv emptyWorld).1 = .ok stuckLatest ∧
    stuckLatest.id = .num (.int 9007199254740996) ∧
    (∀ fuel, search stuckEnv fuel "test" (.num (.int 1)) (.num (.int 10)) emptyWorld = none) := by
  refine ⟨rfl, rfl, ?_, rfl, rfl, ?_⟩
  · obtain ⟨result, w2, hs, hcalls⟩ := search_skip farEnv "test" 1 10 emptyWorld farWorld
      farLatest (by decide) (by decide) (by decide) rfl rfl
    rw [show emptyWorld.byIdCalls = [] from rfl, List.nil_append] at hcalls
    refine ⟨result, w2, hs, hcalls, ?_, by simp [windowIds], ?_, ?_⟩
    · rw [hcalls]
      simp [descending]
    · rw [windowIds_eq]
      exact (mem_descending _ _ _).2 ⟨1, by decide, rfl⟩
    · rw [hcalls]
      intro hmem
      rcases List.mem_cons.1 hmem with h | h
      · simp at h
      · obtain ⟨k, _, e⟩ := (mem_descending _ _ _).1 h
        simp only [JsVal.num.injEq, JsNum.int.injEq] at e
        omega
  · intro fuel
    exact search_stuck stuckEnv fuel "test" 1 10 emptyWorld stuckWorld stuckLatest
      (by decide) (by decide) (by decide) rfl rfl

/-- C6, amended. For valid arguments and a latest id `N` between 1 and `2 ^ 53`,
`search` ends (a fuel of 100 iterations is enough) and calls `getById` on the
ids `N`, `N - 1`, ..., `max(1, N - 99)`, in that order, once each and on no
other id: the calls it adds to the record are exactly the window, of length
`min(N, 100)`, whatever the outcome of each call and whatever the state before
the search. -/
theorem search_window_calls (env : Env) (fuel : Nat) (query : String) (p l N : Int)
    (w w1 : World) (latest : Comic)
    (hq : isQuery query = true) (hp : 1 ≤ p) (hl : 1 ≤ l ∧ l ≤ 50)
    (hlatest : getLatest env w = (.ok latest, w1)) (hid : latest.id = .num (.int N))
    (hN : 1 ≤ N) (hN2 : N ≤ 2 ^ 53) (hfuel : 100 ≤ fuel) :
    (∃ result w2, search env fuel query (.num (.int p)) (.num (.int l)) w
        = some (.ok result, w2) ∧
      w2.byIdCalls = w.byIdCalls ++ windowIds N) ∧
    (windowIds N).length = (min N 100).toNat ∧
    (∀ k : Nat, k < (min N 100).toNat →
      (windowIds N)[k]? = some (.num (.int (N - (k : Int))))) ∧
    (windowIds N)[(min N 100).toNat - 1]? = some (.num (.int (max 1 (N - 99)))) ∧
    (windowIds N).Nodup := by
  have hget : ∀ k : Nat, k < (min N 100).toNat →
      (windowIds N)[k]? = some (.num (.int (N - (k : Int)))) := by
    intro k hk
    simp [windowIds, List.getElem?_map, List.getElem?_range hk]
  refine ⟨?_, by simp [windowIds], hget, ?_, ?_⟩
  · refine ⟨_, _, search_eq env fuel query p l N w w1 latest hq hp hl hlatest hid hN hN2
      hfuel, ?_⟩
    rw [windowOutcomes_byIdCalls]
    have := getLatest_byIdCalls env w
    rw [hlatest] at this
    rw [this]
  · rw [hget _ (by omega)]
    congr 3
    have : (((min N 100).toNat - 1 : Nat) : Int) = min N 100 - 1 := by omega
    rw [this]
    omega
  · apply List.Nodup.map _ (List.nodup_range _)
    intro a b hab
    simp only [JsVal.num.injEq, JsNum.int.injEq] at hab
    omega

/-- A witness of C6: on a service that has just started, with comic 3 the
latest upstream and comic 2 missing, a search calls `getById` on 3, 2 and 1. -/
theorem search_window_calls_witness :
    ∃ result w2, search archiveEnv 100 "python" (.num (.int 1)) (.num (.int 10)) emptyWorld
        = some (.ok result, w2) ∧
      w2.byIdCalls = [.num (.int 3), .num (.int 2), .num (.int 1)] := by
  obtain ⟨⟨result, w2, h, hcalls⟩, _⟩ :=
    search_window_calls archiveEnv 100 "python" 1 10 3 emptyWorld archiveWorld archiveLatest
      (by decide) (by decide) (by decide) rfl rfl (by decide) (by decide) (by decide)
  exact ⟨result, w2, h, hcalls⟩

/-- C7, a counterexample to the claim as worded. The offset of `search` is the
product the engine computes, a double: for page `2 ^ 53 - 1` and a limit of 50
it is 450359962737049472, where `(page - 1) * limit` is 450359962737049500. And
with the latest id `2 ^ 53 + 4` a search returns nothing at all: its loop does
not end, whatever the number of iterations it is given. -/
theorem search_offset_rounded :
    (∃ result w2,
      search archiveEnv 100 "python" (.num (.int 9007199254740991)) (.num (.int 50)) emptyWorld
        = some (.ok result, w2) ∧
      result.pagination.offset = .int 450359962737049472 ∧
      (9007199254740991 - 1) * 50 = (450359962737049500 : Int)) ∧
    (getLatest stuckEnv emptyWorld).1 = .ok stuckLatest ∧
    stuckLatest.id = .num (.int 9007199254740996) ∧
    (∀ fuel result w2,
      search stuckEnv fuel "python" (.num (.int 1)) (.num (.int 10)) emptyWorld
        ≠ some (.ok result, w2)) := by
  refine ⟨?_, rfl, rfl, ?_⟩
  · refine ⟨_, _, search_eq archiveEnv 100 "python" 9007199254740991 50 3 emptyWorld
      archiveWorld archiveLatest (by decide) (by decide) (by decide) rfl rfl (by decide)
      (by decide) (by decide), ?_, by decide⟩
    show JsNum.mulRat ((50 : Int) : ℚ) (JsNum.subInt (.int 9007199254740991) 1) = _
    rw [subInt_int 9007199254740991 1 (by decide)]
    exact roundDouble_offset
  · intro fuel result w2 h
    rw [search_stuck stuckEnv fuel "python" 1 10 emptyWorld stuckWorld stuckLatest
      (by decide) (by decide) (by decide) rfl rfl] at h
    cases h

/-- C7, amended. For valid arguments and a latest id `N` between 1 and `2 ^ 53`,
let `M` be the match sequence of the window: the comics `getById` returned, in
the descending order of the ids, whose lower-cased text contains the lower-cased
query. Then `search` returns the query as given, `total = |M|`, the page and the
limit as given, as offset the product `(page - 1) * limit` the engine computes,
the difference and the product each rounded to a double, which is the exact
product when this is at most `2 ^ 53`, and as results the slice of `M` at
positions
`[(page - 1) * limit, (page - 1) * limit + limit)`:
`min(limit, max(0, total - (page - 1) * limit))` comics, none when
`(page - 1) * limit >= total`. Failed calls give nothing to `M`: it is the match
sequence of the successful outcomes alone. -/
theorem search_result (env : Env) (fuel : Nat) (query : String) (p l N : Int)
    (w w1 : World) (latest : Comic)
    (hq : isQuery query = true) (hp : 1 ≤ p) (hl : 1 ≤ l ∧ l ≤ 50)
    (hlatest : getLatest env w = (.ok latest, w1)) (hid : latest.id = .num (.int N))
    (hN : 1 ≤ N) (hN2 : N ≤ 2 ^ 53) (hfuel : 100 ≤ fuel) :
    ∃ result w2,
      search env fuel query (.num (.int p)) (.num (.int l)) w = some (.ok result, w2) ∧
      result.query = query ∧
      result.total = (matchesOf env query (windowOutcomes env (windowIds N) w1).1).length ∧
      result.pagination.page = p ∧
      result.pagination.limit = l ∧
      result.pagination.offset = JsNum.mulRat (l : ℚ) (JsNum.subInt (.int p) 1) ∧
      ((p - 1) * l ≤ 2 ^ 53 → result.pagination.offset = .int ((p - 1) * l)) ∧
      result.results =
        ((matchesOf env query (windowOutcomes env (windowIds N) w1).1).drop
          ((p - 1) * l).toNat).take l.toNat ∧
      result.results.length = min l.toNat (result.total - ((p - 1) * l).toNat) ∧
      (result.total ≤ ((p - 1) * l).toNat → result.results = []) ∧
      matchesOf env query ((windowOutcomes env (windowIds N) w1).1.filter (fun r => r.isOk))
        = matchesOf env query (windowOutcomes env (windowIds N) w1).1 := by
  refine ⟨_, _, search_eq env fuel query p l N w w1 latest hq hp hl hlatest hid hN hN2 hfuel,
    rfl, rfl, rfl, rfl, rfl, ?_, rfl, ?_, ?_, matchesOf_filter_ok _ _ _⟩
  · intro hoff
    exact offset_exact p l hp hl.1 hoff
  · simp [List.length_take, List.length_drop]
  · intro h
    simp only at h ⊢
    rw [List.drop_eq_nil_of_le h, List.take_nil]

/-- A witness of C7: on a service that has just started, with comics 3 and 1
mentioning Python and comic 2 missing, the search for `python` returns comics 3
and 1 in that order, `total = 2`, and offset 0. -/
theorem search_result_witness :
    ∃ result w2,
      search archiveEnv 100 "python" (.num (.int 1)) (.num (.int 10)) emptyWorld
        = some (.ok result, w2) ∧
      result.query = "python" ∧
      result.total = 2 ∧
      result.pagination = { page := 1, limit := 10, offset := .int 0 } ∧
      result.results = [archiveLatest, archiveFirst] := by
  obtain ⟨result, w2, h, hq, ht, hpage, hlimit, _, hoff, hr, _⟩ :=
    search_result archiveEnv 100 "python" 1 10 3 emptyWorld archiveWorld archiveLatest
      (by decide) (by decide) (by decide) rfl rfl (by decide) (by decide) (by decide)
  have hM : matchesOf archiveEnv "python"
      (windowOutcomes archiveEnv (windowIds 3) archiveWorld).1
        = [archiveLatest, archiveFirst] := by decide
  rw [hM] at ht hr
  have hoff2 := hoff (by decide)
  refine ⟨result, w2, h, hq, ht, ?_, hr⟩
  cases hpg : result.pagination with
  | mk page limit offset =>
    rw [hpg] at hpage hlimit hoff2
    simp only at hpage hlimit hoff2
    rw [hpage, hlimit, hoff2]
    rfl

/-- C8. For valid arguments, `search` fails if and only if its call of
`getLatest` fails, and then with the message `Search failed: ` followed by the
message of that failure. When `getLatest` succeeds `search` never fails,
whatever `getById` does on the ids of the window; and for a latest id `N`
between 1 and `2 ^ 53` it returns, having called `getById` on the whole
window. -/
theorem search_fails_iff (env : Env) (fuel : Nat) (query : String) (p l : Int) (w : World)
    (hq : isQuery query = true) (hp : 1 ≤ p) (hl : 1 ≤ l ∧ l ≤ 50) :
    (∀ e w1, getLatest env w = (.error e, w1) →
      search env fuel query (.num (.int p)) (.num (.int l)) w
        = some (.error (mkError ("Search failed: " ++ e.message)), w1)) ∧
    (∀ latest w1, getLatest env w = (.ok latest, w1) →
      ∀ e w2, search env fuel query (.num (.int p)) (.num (.int l)) w ≠ some (.error e, w2)) ∧
    ((∃ e w2, search env fuel query (.num (.int p)) (.num (.int l)) w = some (.error e, w2))
      ↔ ∃ e w1, getLatest env w = (.error e, w1)) ∧
    (∀ latest w1 N, getLatest env w = (.ok latest, w1) → latest.id = .num (.int N) →
      1 ≤ N → N ≤ 2 ^ 53 → 100 ≤ fuel →
      ∃ result w2, search env fuel query (.num (.int p)) (.num (.int l)) w
          = some (.ok result, w2) ∧
        w2.byIdCalls = w.byIdCalls ++ windowIds N) := by
  have hp1 : isPositiveInteger (.num (.int p)) = true := by
    simp [isPositiveInteger]; omega
  have hl1 : isLimit (.num (.int l)) = true := by
    simp [isLimit]; omega
  have hfail : ∀ e w1, getLatest env w = (.error e, w1) →
      search env fuel query (.num (.int p)) (.num (.int l)) w
        = some (.error (mkError ("Search failed: " ++ e.message)), w1) := by
    intro e w1 h
    rw [search_of_valid env fuel query _ _ w hq hp1 hl1, h]
  have hok : ∀ latest w1, getLatest env w = (.ok latest, w1) →
      ∀ e w2, search env fuel query (.num (.int p)) (.num (.int l)) w
        ≠ some (.error e, w2) := by
    intro latest w1 h e w2 hs
    rw [search_of_valid env fuel query _ _ w hq hp1 hl1, h] at hs
    simp only at hs
    split at hs
    · cases hs
    · simp at hs
  refine ⟨hfail, hok, ⟨?_, ?_⟩, ?_⟩
  · rintro ⟨e, w2, hs⟩
    cases hg : getLatest env w with
    | mk r w1 =>
      cases r with
      | error e1 => exact ⟨e1, w1, rfl⟩
      | ok latest => exact absurd hs (hok latest w1 hg e w2)
  · rintro ⟨e, w1, hg⟩
    exact ⟨_, _, hfail e w1 hg⟩
  · intro latest w1 N hg hid hN hN2 hfuel
    refine ⟨_, _, search_eq env fuel query p l N w w1 latest hq hp hl hg hid hN hN2 hfuel, ?_⟩
    rw [windowOutcomes_byIdCalls]
    have := getLatest_byIdCalls env w
    rw [hg] at this
    rw [this]

/-- A witness of C8: with an upstream that answers 500, `getLatest` fails and
`search` fails with its message behind `Search failed: `; with comic 3 the latest
and comic 2 missing, `search` returns and has called `getById` on 3, 2 and 1. -/
theorem search_fails_iff_witness :
    search serverErrorEnv 100 "test" (.num (.int 1)) (.num (.int 10)) emptyWorld
      = some (.error (mkError ("Search failed: "
          ++ (mkError "Failed to fetch latest comic: HTTP 500: Server Error").message)),
        { emptyWorld with cacheReads := ["latest"], requests := ["https://xkcd.com/info.0.json"] }) ∧
    ∃ result w2, search archiveEnv 100 "python" (.num (.int 1)) (.num (.int 10)) emptyWorld
        = some (.ok result, w2) ∧
      w2.byIdCalls = emptyWorld.byIdCalls ++ windowIds 3 :=
  ⟨(search_fails_iff serverErrorEnv 100 "test" 1 10 emptyWorld (by decide) (by decide)
      (by decide)).1 _ _ rfl,
   (search_fails_iff archiveEnv 100 "python" 1 10 emptyWorld (by decide) (by decide)
      (by decide)).2.2.2 archiveLatest archiveWorld 3 rfl rfl (by decide) (by decide)
      (by decide)⟩

/-- C9. For a fixed query, limit and state before the search, and a latest id
between 1 and `2 ^ 53`, with `M` the match sequence of the window: every page
reports `total = |M|`; the result at index `j` of page `p` is the element of `M`
at position `(p - 1) * limit + j`, for `j < limit`; every position of page `p`
lies before every position of page `p + 1`, so the two pages share none; and the
results of pages 1 to `k`, one after the other, are the first
`min(k * limit, |M|)` elements of `M`. With a limit of 10, page 2 has offset 10
and returns the elements of `M` at positions 10 to 19. -/
theorem search_pagination (env : Env) (fuel : Nat) (query : String) (l N : Int)
    (w w1 : World) (latest : Comic)
    (hq : isQuery query = true) (hl : 1 ≤ l ∧ l ≤ 50)
    (hlatest : getLatest env w = (.ok latest, w1)) (hid : latest.id = .num (.int N))
    (hN : 1 ≤ N) (hN2 : N ≤ 2 ^ 53) (hfuel : 100 ≤ fuel) :
    (∀ p : Int, 1 ≤ p →
      ∃ result w2, search env fuel query (.num (.int p)) (.num (.int l)) w
          = some (.ok result, w2) ∧
        result.total = (matchesOf env query (windowOutcomes env (windowIds N) w1).1).length ∧
        result.results = pageResults env fuel query (.num (.int p)) (.num (.int l)) w ∧
        result.results
          = ((matchesOf env query (windowOutcomes env (windowIds N) w1).1).drop
              ((p - 1) * l).toNat).take l.toNat) ∧
    (∀ p : Int, 1 ≤ p → ∀ j : Nat,
      (pageResults env fuel query (.num (.int p)) (.num (.int l)) w)[j]?
        = if j < l.toNat then
            (matchesOf env query (windowOutcomes env (windowIds N) w1).1)[((p - 1) * l).toNat + j]?
          else none) ∧
    (∀ p : Int, 1 ≤ p → ∀ j j2 : Nat, j < l.toNat →
      ((p - 1) * l).toNat + j < ((p + 1 - 1) * l).toNat + j2) ∧
    (∀ k : Nat, 1 ≤ k →
      firstPages env fuel query (.num (.int l)) w k
        = (matchesOf env query (windowOutcomes env (windowIds N) w1).1).take
            (min (k * l.toNat)
              (matchesOf env query (windowOutcomes env (windowIds N) w1).1).length)) ∧
    (l = 10 →
      ∃ result w2, search env fuel query (.num (.int 2)) (.num (.int l)) w
          = some (.ok result, w2) ∧
        result.pagination.offset = .int 10 ∧
        result.results
          = ((matchesOf env query (windowOutcomes env (windowIds N) w1).1).drop 10).take 10) := by
  refine ⟨?_, ?_, ?_, ?_, ?_⟩
  · intro p hp
    refine ⟨_, _, search_eq env fuel query p l N w w1 latest hq hp hl hlatest hid hN hN2 hfuel,
      rfl, ?_, rfl⟩
    rw [pageResults_eq env fuel query p l N w w1 latest hq hp hl hlatest hid hN hN2 hfuel]
  · intro p hp j
    rw [pageResults_eq env fuel query p l N w w1 latest hq hp hl hlatest hid hN hN2 hfuel,
      List.getElem?_take, List.getElem?_drop]
  · intro p hp j j2 hj
    obtain ⟨L, rfl⟩ : ∃ L : Nat, l = L := ⟨l.toNat, by omega⟩
    obtain ⟨P, rfl⟩ : ∃ P : Nat, p = (P : Int) + 1 := ⟨(p - 1).toNat, by omega⟩
    have e1 : ((P : Int) + 1 - 1) * (L : Int) = ((P * L : Nat) : Int) := by push_cast; ring
    have e2 : ((P : Int) + 1 + 1 - 1) * (L : Int) = ((P * L + L : Nat) : Int) := by
      push_cast; ring
    rw [e1, e2]
    simp only [Int.toNat_ofNat] at hj ⊢
    omega
  · intro k _
    rw [take_min_length]
    exact firstPages_eq env fuel query l N w w1 latest hq hl hlatest hid hN hN2 hfuel k
  · rintro rfl
    exact ⟨_, _, search_eq env fuel query 2 10 N w w1 latest hq (by decide) hl hlatest hid hN
      hN2 hfuel, offset_exact 2 10 (by decide) (by decide) (by decide), rfl⟩

/-- A witness of C9, the setting of the unit test on pagination with 25 comics
that all match: page 2 with a limit of 10 has offset 10 and returns comics 15
down to 6, page 1 returns comics 25 down to 16, every page reports a total of
25, and the two pages one after the other are the first 20 matches. -/
theorem search_pagination_witness :
    (∃ result w2,
      search matchingEnv 100 "match" (.num (.int 2)) (.num (.int 10)) emptyWorld
        = some (.ok result, w2) ∧
      result.pagination.offset = .int 10 ∧
      result.results.map (fun c => c.id)
        = [.num (.int 15), .num (.int 14), .num (.int 13), .num (.int 12), .num (.int 11),
           .num (.int 10), .num (.int 9), .num (.int 8), .num (.int 7), .num (.int 6)]) ∧
    (∃ result w2,
      search matchingEnv 100 "match" (.num (.int 1)) (.num (.int 10)) emptyWorld
        = some (.ok result, w2) ∧
      result.total = 25 ∧
      result.results.map (fun c => c.id)
        = [.num (.int 25), .num (.int 24), .num (.int 23), .num (.int 22), .num (.int 21),
           .num (.int 20), .num (.int 19), .num (.int 18), .num (.int 17), .num (.int 16)]) ∧
    firstPages matchingEnv 100 "match" (.num (.int 10)) emptyWorld 2
      = (matchesOf matchingEnv "match"
          (windowOutcomes matchingEnv (windowIds 25) matchingWorld).1).take 20 := by
  have h := search_pagination matchingEnv 100 "match" 10 25 emptyWorld matchingWorld
    matchingLatest (by decide) (by decide) rfl rfl (by decide) (by decide) (by decide)
  obtain ⟨h1, _, _, h4, h5⟩ := h
  refine ⟨?_, ?_, ?_⟩
  · obtain ⟨result, w2, hs, hoff, hres⟩ := h5 rfl
    refine ⟨result, w2, hs, hoff, ?_⟩
    rw [hres]
    rfl
  · obtain ⟨result, w2, hs, htotal, _, hres⟩ := h1 1 (by decide)
    refine ⟨result, w2, hs, ?_, ?_⟩
    · rw [htotal]
      rfl
    · rw [hres]
      rfl
  · rw [h4 2 (by decide)]
    rfl

/-- C10, a counterexample to the claim as worded. With the latest id
`2 ^ 53 + 2` and the random value `1 - 2 ^ -53`, `floor(r * N) + 1` is
`2 ^ 53 + 1`, with the product exact or rounded to a double; the sum the engine
computes is rounded, and `getRandom` calls `getById` with `2 ^ 53`. And in the
setting of the unit test, the latest id 2750 and the double nearest to
`1499 / 2750`, the exact product has floor 1498 where the engine's product is
1499: `getRandom` calls `getById` with 1500, not with 1499. -/
theorem getRandom_rounds_the_id :
    (getLatest farEnv emptyWorld = (.ok farLatest, farWorld) ∧
      farLatest.id = .num (.int 9007199254740994) ∧
      farEnv.random farWorld.draws = 9007199254740991 / 9007199254740992 ∧
      (getRandom farEnv emptyWorld).2.byIdCalls = [.num (.int 9007199254740992)] ∧
      ⌊farEnv.random farWorld.draws * ((9007199254740994 : Int) : ℚ)⌋ + 1
        = 9007199254740993 ∧
      ⌊nearestDouble (farEnv.random farWorld.draws * ((9007199254740994 : Int) : ℚ))⌋ + 1
        = 9007199254740993) ∧
    (getLatest mockedEnv emptyWorld = (.ok mockedLatest, mockedWorld) ∧
      mockedLatest.id = .num (.int 2750) ∧
      mockedEnv.random mockedWorld.draws = 2454871215064863 / 4503599627370496 ∧
      (getRandom mockedEnv emptyWorld).2.byIdCalls = [.num (.int 1500)] ∧
      ⌊mockedEnv.random mockedWorld.draws * ((2750 : Int) : ℚ)⌋ + 1 = 1499) := by
  have e : farEnv.random farWorld.draws = 9007199254740991 / 9007199254740992 := rfl
  have e2 : mockedEnv.random mockedWorld.draws = 2454871215064863 / 4503599627370496 := rfl
  refine ⟨⟨rfl, rfl, e, ?_, ?_, ?_⟩, rfl, rfl, e2, ?_, ?_⟩
  · exact getRandom_byIdCalls farEnv emptyWorld farWorld farLatest 9007199254740992 rfl far_id
  · rw [e, far_exact_product]
    rfl
  · rw [e, far_product]
    norm_num
  · exact getRandom_byIdCalls mockedEnv emptyWorld mockedWorld mockedLatest 1500 rfl mocked_id
  · rw [e2, mocked_exact_product]
    rfl

/-- C10, amended. For a latest id `N` between 1 and `2 ^ 53` and a random value
`r`, a double with `0 <= r < 1`, `getRandom` asks for the id
`floor(r * N) + 1`, the product being the double the engine computes, and this
id lies between 1 and `N`; it calls `getById` once, with that id, and returns the record `getById`
returns (a failure of `getById` comes back behind
`Failed to fetch random comic: `). -/
theorem getRandom_delegates (env : Env) (w w1 : World) (latest : Comic) (N : Int)
    (hlatest : getLatest env w = (.ok latest, w1)) (hid : latest.id = .num (.int N))
    (hN : 1 ≤ N) (hN2 : N ≤ 2 ^ 53) (hr : IsDouble (env.random w1.draws))
    (h0 : 0 ≤ env.random w1.draws) (h1 : env.random w1.draws < 1) :
    1 ≤ ⌊nearestDouble (env.random w1.draws * N)⌋ + 1 ∧
    ⌊nearestDouble (env.random w1.draws * N)⌋ + 1 ≤ N ∧
    (getRandom env w).2.byIdCalls
      = w.byIdCalls ++ [.num (.int (⌊nearestDouble (env.random w1.draws * N)⌋ + 1))] ∧
    (∀ comic w2,
      getById env (.num (.int (⌊nearestDouble (env.random w1.draws * N)⌋ + 1)))
          { w1 with draws := w1.draws + 1 } = (.ok comic, w2) →
      getRandom env w = (.ok comic, w2)) ∧
    (∀ e w2,
      getById env (.num (.int (⌊nearestDouble (env.random w1.draws * N)⌋ + 1)))
          { w1 with draws := w1.draws + 1 } = (.error e, w2) →
      getRandom env w
        = (.error (mkError ("Failed to fetch random comic: " ++ e.message)), w2)) := by
  have hNq : (1 : ℚ) ≤ (N : ℚ) := by exact_mod_cast hN
  have hNq2 : (N : ℚ) ≤ 2 ^ 53 := by exact_mod_cast hN2
  obtain ⟨hy0, hyN⟩ := nearestDouble_product (env.random w1.draws) N h0
    (double_below_one _ hr h1) hNq
  have hfl0 : 0 ≤ ⌊nearestDouble (env.random w1.draws * N)⌋ := Int.floor_nonneg.2 hy0
  have hflN : ⌊nearestDouble (env.random w1.draws * N)⌋ < N := by
    rw [Int.floor_lt]
    exact hyN
  have hround : roundDouble (env.random w1.draws * N)
      = JsNum.ofRat (nearestDouble (env.random w1.draws * N)) := by
    unfold roundDouble
    rw [if_neg]
    rw [abs_of_nonneg hy0, not_le]
    exact lt_of_lt_of_le hyN (le_trans hNq2 (pow_le_pow_right₀ (by norm_num) (by norm_num)))
  have hid2 : JsNum.addInt (JsNum.floor (JsNum.mulRat (env.random w1.draws)
      (toNumber env latest.id))) 1
        = .int (⌊nearestDouble (env.random w1.draws * N)⌋ + 1) := by
    rw [hid, toNumber, JsNum.mulRat, hround, floor_ofRat]
    exact addInt_int _ 1 (by rw [abs_of_nonneg (by omega)]; omega)
  refine ⟨?_, ?_, ?_, ?_, ?_⟩
  · omega
  · omega
  · exact getRandom_byIdCalls env w w1 latest _ hlatest hid2
  · intro comic w2 hg
    unfold getRandom
    rw [hlatest]
    simp only [hid2, hg]
  · intro e w2 hg
    unfold getRandom
    rw [hlatest]
    simp only [hid2, hg]

/-- A witness of C10, the setting of the unit test: the latest comic is 2750
and the random source returns the double nearest to `1499 / 2750`; `getRandom`
calls `getById` once, with 1500, and returns its record. -/
theorem getRandom_delegates_witness :
    (1 : Int) ≤ 1500 ∧ (1500 : Int) ≤ 2750 ∧
    (getRandom mockedEnv emptyWorld).2.byIdCalls = emptyWorld.byIdCalls ++ [.num (.int 1500)] ∧
    (getRandom mockedEnv emptyWorld).1 = .ok mockedRandom := by
  have h := getRandom_delegates mockedEnv emptyWorld mockedWorld mockedLatest 2750 rfl rfl
    (by decide) (by decide)
    ⟨2454871215064863, -52, by decide, by decide, by decide, by
      show (2454871215064863 / 4503599627370496 : ℚ) = _
      rw [zpow_neg]
      norm_num⟩
    (by show (0 : ℚ) ≤ 2454871215064863 / 4503599627370496; norm_num)
    (by show (2454871215064863 / 4503599627370496 : ℚ) < 1; norm_num)
  have e : mockedEnv.random mockedWorld.draws = 2454871215064863 / 4503599627370496 := rfl
  have hid : ⌊nearestDouble (mockedEnv.random mockedWorld.draws * ((2750 : Int) : ℚ))⌋ + 1
      = 1500 := by
    rw [e, mocked_product]
    norm_num
  rw [hid] at h
  refine ⟨h.1, h.2.1, h.2.2.1, ?_⟩
  rw [h.2.2.2.1 mockedRandom _ rfl]

/-- C11. For every raw payload (a JSON object), `processComic` returns a record
with `id = num`, with `title`, `img`, `alt`, `year`, `month`, `day` and
`safe_title` copied as they are, and with a transcript that is the raw one when
it is a non-empty string and the empty string when the raw one is absent or
falsy, hence never `null` or absent. The record depends on the nine properties
of the payload and on nothing else: two payloads that agree on them give the
same record. -/
theorem processComic_record (raw : RawComic) :
    ∃ comic, processComic (some raw) = .ok comic ∧
      comic.id = getProp raw "num" ∧
      comic.title = getProp raw "title" ∧
      comic.img = getProp raw "img" ∧
      comic.alt = getProp raw "alt" ∧
      comic.year = getProp raw "year" ∧
      comic.month = getProp raw "month" ∧
      comic.day = getProp raw "day" ∧
      comic.safe_title = getProp raw "safe_title" ∧
      (∀ s, getProp raw "transcript" = .str s → s ≠ "" → comic.transcript = .str s) ∧
      (isFalsy (getProp raw "transcript") = true → comic.transcript = .str "") ∧
      (raw.lookup "transcript" = none → comic.transcript = .str "") ∧
      comic.transcript ≠ .null ∧
      comic.transcript ≠ .undefined ∧
      (∀ other : RawComic, (∀ key ∈ rawFields, getProp other key = getProp raw key) →
        processComic (some other) = .ok comic) := by
  refine ⟨_, rfl, rfl, rfl, rfl, rfl, rfl, rfl, rfl, rfl, ?_, ?_, ?_, ?_, ?_, ?_⟩
  · intro s hs hne
    simp only [hs, JsVal.truthy, decide_eq_true hne, if_true]
  · intro hf
    have ht := truthy_of_isFalsy _ hf
    simp only [ht, Bool.false_eq_true, if_false]
  · intro hnone
    have hu : getProp raw "transcript" = .undefined := by
      simp [getProp, hnone]
    simp only [hu, JsVal.truthy, Bool.false_eq_true, if_false]
  · by_cases ht : (getProp raw "transcript").truthy = true
    · simp only [ht, if_true]
      intro h
      rw [h] at ht
      simp [JsVal.truthy] at ht
    · simp only [ht, if_false]
      simp
  · by_cases ht : (getProp raw "transcript").truthy = true
    · simp only [ht, if_true]
      intro h
      rw [h] at ht
      simp [JsVal.truthy] at ht
    · simp only [ht, if_false]
      simp
  · intro other h
    have hk : ∀ key, key ∈ rawFields → getProp other key = getProp raw key := h
    simp only [processComic]
    rw [hk "num" (by decide), hk "title" (by decide), hk "img" (by decide),
      hk "alt" (by decide), hk "transcript" (by decide), hk "year" (by decide),
      hk "month" (by decide), hk "day" (by decide), hk "safe_title" (by decide)]

/-- C12, the claim refuted. With an upstream that answers 200 and a body
without `num`, `getById(614)` and `getLatest()` do not fail: they return a
record whose `id` is `undefined`, not a positive integer, and store it in the
cache. -/
theorem missing_num_is_returned :
    (getById headlessEnv (.num (.int 614)) emptyWorld).1 = .ok headlessComic ∧
    (getById headlessEnv (.num (.int 614)) emptyWorld).2.cache
      = [("comic-614", { data := headlessComic, timestamp := 0 })] ∧
    (getLatest headlessEnv emptyWorld).1 = .ok headlessComic ∧
    (getLatest headlessEnv emptyWorld).2.cache
      = [("latest", { data := headlessComic, timestamp := 0 })] ∧
    headlessBody.lookup "num" = none ∧
    headlessComic.id = .undefined ∧
    isPositiveInteger headlessComic.id = false :=
  ⟨rfl, rfl, rfl, rfl, rfl, rfl, rfl⟩

/-- C12, amended. For a positive integer `id`, no fresh entry in the cache and a
successful response (`ok`, status other than 404), `getById` and `getLatest` do
not check the fields of the body. When the body is a JSON object they return the
record `processComic` builds from it, whatever properties it has, and store it
in the cache; the `id` of the record is the `num` of the body, a positive
integer exactly when that is one. They fail, and store nothing, when the body is
`null` or cannot be parsed. -/
theorem unchecked_body (env : Env) (id : JsVal) (w : World) (r : Response)
    (hid : isPositiveInteger id = true)
    (hc : ∀ entry, w.cache.get (comicKey env id) = some entry →
      isFresh (env.now w.clock) entry = false)
    (hcl : ∀ entry, w.cache.get "latest" = some entry →
      isFresh (env.now w.clock) entry = false)
    (hr : env.fetch w.requests.length (comicUrl env id) = .resolved (some r))
    (hrl : env.fetch w.requests.length latestUrl = .resolved (some r))
    (hok : r.ok = true) (hs : r.status ≠ 404) :
    (∀ raw, r.json = .ok (some raw) →
      ∃ comic, processComic (some raw) = .ok comic ∧
        comic.id = getProp raw "num" ∧
        isPositiveInteger comic.id = isPositiveInteger (getProp raw "num") ∧
        (getById env id w).1 = .ok comic ∧
        (∃ t, (getById env id w).2.cache.get (comicKey env id)
          = some { data := comic, timestamp := t }) ∧
        (getLatest env w).1 = .ok comic ∧
        (∃ t, (getLatest env w).2.cache.get "latest"
          = some { data := comic, timestamp := t })) ∧
    ((r.json = .ok none ∨ ∃ e, r.json = .error e) →
      (∃ e, (getById env id w).1 = .error e) ∧
      (getById env id w).2.cache = w.cache ∧
      (∃ e, (getLatest env w).1 = .error e) ∧
      (getLatest env w).2.cache = w.cache) := by
  obtain ⟨w0, h0, hcache0, hreq0⟩ := getById_no_fresh_entry env id w hid hc
  obtain ⟨w1, h1, hcache1, hreq1⟩ := getLatest_no_fresh_entry env w hcl
  constructor
  · intro raw hjson
    obtain ⟨comic, hcomic⟩ : ∃ comic, processComic (some raw) = .ok comic := ⟨_, rfl⟩
    have hb0 : byIdBody (env.fetch w0.requests.length (comicUrl env id)) = .ok comic := by
      rw [hreq0, hr]
      simp [byIdBody, hs, hok, hjson, hcomic]
    have hb1 : latestBody (env.fetch w1.requests.length latestUrl) = .ok comic := by
      rw [hreq1, hrl]
      simp [latestBody, hok, hjson, hcomic]
    have hidc : comic.id = getProp raw "num" := by
      have := hcomic
      simp only [processComic, Except.ok.injEq] at this
      rw [← this]
    refine ⟨comic, hcomic, hidc, by rw [hidc], ?_, ?_, ?_, ?_⟩
    · rw [h0, fetchById_of_ok env id _ w0 comic hb0]
    · rw [h0, fetchById_of_ok env id _ w0 comic hb0]
      exact ⟨_, Cache.get_set_self _ _ _⟩
    · rw [h1, fetchLatest_of_ok env w1 comic hb1]
    · rw [h1, fetchLatest_of_ok env w1 comic hb1]
      exact ⟨_, Cache.get_set_self _ _ _⟩
  · intro hbad
    obtain ⟨e, he⟩ : ∃ e, (match r.json with
        | .error e => (Except.error e : Except JsError Comic)
        | .ok comic => processComic comic) = .error e := by
      rcases hbad with hnull | ⟨e, he⟩
      · rw [hnull]
        exact ⟨_, rfl⟩
      · rw [he]
        exact ⟨_, rfl⟩
    have hb0 : byIdBody (env.fetch w0.requests.length (comicUrl env id)) = .error e := by
      rw [hreq0, hr]
      simp only [byIdBody, hs, hok, if_false, Bool.not_true, Bool.false_eq_true]
      exact he
    have hb1 : latestBody (env.fetch w1.requests.length latestUrl) = .error e := by
      rw [hreq1, hrl]
      simp only [latestBody, hok, if_false, Bool.not_true, Bool.false_eq_true]
      exact he
    rw [h0, fetchById_of_error env id _ w0 e hb0, h1, fetchLatest_of_error env w1 e hb1]
    exact ⟨⟨_, rfl⟩, hcache0, ⟨_, rfl⟩, hcache1⟩

/-- A witness of the amended C12: with an upstream that answers 200 and a body
without `num`, `getById(614)` and `getLatest()` return the record built from the
body and store it. -/
theorem unchecked_body_witness :
    ∃ comic, processComic (some headlessBody) = .ok comic ∧
      comic.id = getProp headlessBody "num" ∧
      isPositiveInteger comic.id = isPositiveInteger (getProp headlessBody "num") ∧
      (getById headlessEnv (.num (.int 614)) emptyWorld).1 = .ok comic ∧
      (∃ t, (getById headlessEnv (.num (.int 614)) emptyWorld).2.cache.get
          (comicKey headlessEnv (.num (.int 614)))
        = some { data := comic, timestamp := t }) ∧
      (getLatest headlessEnv emptyWorld).1 = .ok comic ∧
      (∃ t, (getLatest headlessEnv emptyWorld).2.cache.get "latest"
        = some { data := comic, timestamp := t }) :=
  (unchecked_body headlessEnv (.num (.int 614)) emptyWorld
    { ok := true, status := 200, statusText := "OK", json := .ok (some headlessBody) }
    (by decide) (by intro entry he; cases he) (by intro entry he; cases he) rfl rfl rfl
    (by decide)).1 headlessBody rfl

/-- C13, the claim refuted. With a latest comic 3, a random value of 0 and
comic 1 missing upstream, `getById(1)` fails with `Comic not found`, `getRandom`
fails with that message behind its prefix, and the route answers 404, not 500.
With a latest body without `num` the random id is `NaN`, `getById` fails with
`Invalid comic ID`, and the route answers 400. -/
theorem random_route_not_500 :
    (getById gapEnv (.num (.int 1)) { gapLatestWorld with draws := 1 }).1
      = .error (mkError "Comic not found") ∧
    (getRandom gapEnv emptyWorld).1
      = .error (mkError "Failed to fetch random comic: Comic not found") ∧
    (randomRoute (errorHandler gapEnv) gapEnv emptyWorld).1.status = 404 ∧
    (getRandom headlessEnv emptyWorld).1
      = .error (mkError "Failed to fetch random comic: Invalid comic ID") ∧
    (randomRoute (errorHandler headlessEnv) headlessEnv emptyWorld).1.status = 400 := by
  refine ⟨rfl, ?_, ?_, rfl, rfl⟩
  · rw [gap_getRandom]
  · unfold randomRoute
    rw [gap_getRandom]
    rfl

/-- C13, amended. For every failure of `getRandom`, from `getLatest` or from
`getById`, the error is a new one whose message is the message of that failure
behind `Failed to fetch random comic: `, and the route hands it to the
middleware, which answers 404 when the lower-cased message contains
`comic not found` (so when `getById` failed with `Comic not found`), otherwise
400 when it contains `invalid comic id` (so when `getById` failed with
`Invalid comic ID`), and 500 in every other case. -/
theorem randomRoute_failure (env : Env) (w w1 : World) (e : JsError)
    (h : getRandom env w = (.error e, w1)) :
    randomRoute (errorHandler env) env w = (.failed (errorHandler env e), w1) ∧
    (randomRoute (errorHandler env) env w).1.status =
      (if includes (toLowerCase env e.message) "comic not found" then 404
      else if includes (toLowerCase env e.message) "invalid comic id" then 400
      else 500) ∧
    (e.message = "Failed to fetch random comic: Comic not found" →
      (randomRoute (errorHandler env) env w).1.status = 404) ∧
    (e.message = "Failed to fetch random comic: Invalid comic ID" →
      (randomRoute (errorHandler env) env w).1.status = 400) ∧
    (∀ e1 w0, getLatest env w = (.error e1, w0) →
      e = mkError ("Failed to fetch random comic: " ++ e1.message)) ∧
    (∀ latest w0 e2 w2, getLatest env w = (.ok latest, w0) →
      getById env
          (.num (JsNum.addInt (JsNum.floor (JsNum.mulRat (env.random w0.draws)
            (toNumber env latest.id))) 1))
          { w0 with draws := w0.draws + 1 } = (.error e2, w2) →
      e = mkError ("Failed to fetch random comic: " ++ e2.message)) := by
  have hroute : randomRoute (errorHandler env) env w = (.failed (errorHandler env e), w1) := by
    unfold randomRoute
    rw [h]
  obtain ⟨m, hm⟩ := getRandom_error_form env w w1 e h
  have hstatus : (randomRoute (errorHandler env) env w).1.status =
      (if includes (toLowerCase env e.message) "comic not found" then 404
      else if includes (toLowerCase env e.message) "invalid comic id" then 400
      else 500) := by
    rw [hroute, hm]
    exact errorHandler_random env m
  refine ⟨hroute, hstatus, ?_, ?_, ?_, ?_⟩
  · intro hmsg
    rw [hstatus, hmsg]
    rfl
  · intro hmsg
    rw [hstatus, hmsg]
    rfl
  · intro e1 w0 hl
    rw [getRandom_of_latest_error env w w0 e1 hl] at h
    injection h with h1 _
    injection h1 with h1
    exact h1.symm
  · intro latest w0 e2 w2 hl hg
    unfold getRandom at h
    rw [hl] at h
    simp only [hg] at h
    injection h with h1 _
    injection h1 with h1
    exact h1.symm

/-- A witness of the amended C13: with a latest comic 3, a random value of 0 and
comic 1 missing upstream, the route answers the failure of `getRandom` with 404. -/
theorem randomRoute_failure_witness :
    randomRoute (errorHandler gapEnv) gapEnv emptyWorld
      = (.failed (errorHandler gapEnv
          (mkError "Failed to fetch random comic: Comic not found")), gapWorld) ∧
    (randomRoute (errorHandler gapEnv) gapEnv emptyWorld).1.status = 404 := by
  have h := randomRoute_failure gapEnv emptyWorld gapWorld
    (mkError "Failed to fetch random comic: Comic not found") gap_getRandom
  exact ⟨h.1, h.2.2.1 rfl⟩

end XKCDService
